import Mathlib

/-!
# Chat session controller of the school portal site

A shallow embedding of the class `AIChatManager` of `script.js`: its guard state,
its history window (`conversationHistory`), the visible transcript and the two
entry points `sendMessage` / `sendSuggestionMessage` together with
`getAIResponse` and the connection test `testAIConnection`.

The asynchronous entry points are cut at their single suspension point, the
`await fetch(...)` inside `getAIResponse`: the code that runs before it is the
`_start` half, the code that runs once the request has settled is the `_resume`
half. JavaScript runs each half to completion, so a run of the page is a sequence
of such halves (`Event`, `step`).
-/

namespace SchoolPortal

/-! ## JavaScript values -/

/-- A JavaScript value as produced by `response.json()` and by property access. A
number is kept as an integer: the code only tests numbers for truthiness. -/
inductive JsValue where
  | undefined
  | null
  | bool (b : Bool)
  | num (n : Int)
  | str (s : String)
  | arr (items : List JsValue)
  | obj (fields : List (String × JsValue))

/-- A thrown `Error`; only its `message` is read. -/
structure JsError where
  message : String

namespace JsValue

/-- JavaScript truthiness, as used by `&&` and `if`. -/
def truthy : JsValue → Bool
  | undefined => false
  | null => false
  | bool b => b
  | num n => n != 0
  | str s => s != ""
  | arr _ => true
  | obj _ => true

/-- Own property of an object literal, `undefined` when absent. -/
def lookup (key : String) : List (String × JsValue) → JsValue
  | [] => undefined
  | (k, v) :: rest => if k = key then v else lookup key rest

/-- The `TypeError` thrown by a property read on `undefined` or `null` (the wording
of V8). -/
def readError (base name : String) : JsError :=
  ⟨"Cannot read properties of " ++ base ++ " (reading '" ++ name ++ "')"⟩

/-- Property read `v.name` for a name that no prototype defines (`choices`, `message`,
`content`): it throws on `undefined` and `null`, finds own properties of an object and
is `undefined` on every other value. -/
def getField (v : JsValue) (name : String) : Except JsError JsValue :=
  match v with
  | undefined => Except.error (readError "undefined" name)
  | null => Except.error (readError "null" name)
  | obj fields => Except.ok (lookup name fields)
  | _ => Except.ok undefined

/-- Indexed read `v[0]`: the first element of an array, the first character of a
string (for a character outside the basic plane JavaScript gives half of it, which is
a non-empty string all the same), the own property `"0"` of an object. -/
def getIndex0 (v : JsValue) : Except JsError JsValue :=
  match v with
  | undefined => Except.error (readError "undefined" "0")
  | null => Except.error (readError "null" "0")
  | arr [] => Except.ok undefined
  | arr (x :: _) => Except.ok x
  | str s =>
    match s.data with
    | [] => Except.ok undefined
    | c :: _ => Except.ok (str (String.singleton c))
  | obj fields => Except.ok (lookup "0" fields)
  | _ => Except.ok undefined

end JsValue

/-! ## Text helpers -/

/-- Code points removed by `String.prototype.trim`: ECMAScript WhiteSpace and
LineTerminator. -/
def isJsWhiteSpace (c : Char) : Bool :=
  let n := c.toNat
  n = 0x09 || n = 0x0A || n = 0x0B || n = 0x0C || n = 0x0D || n = 0x20 || n = 0xA0 ||
  n = 0x1680 || (0x2000 ≤ n && n ≤ 0x200A) || n = 0x2028 || n = 0x2029 || n = 0x202F ||
  n = 0x205F || n = 0x3000 || n = 0xFEFF

/-- The method `trim` on characters: white space is dropped at both ends. -/
def trimChars (cs : List Char) : List Char :=
  ((cs.dropWhile isJsWhiteSpace).reverse.dropWhile isJsWhiteSpace).reverse

/-- The method `String.prototype.trim`. -/
def jsTrim (s : String) : String := String.mk (trimChars s.data)

/-- Substring search on characters. -/
def includesChars : List Char → List Char → Bool
  | [], needle => needle.isPrefixOf []
  | c :: cs, needle => needle.isPrefixOf (c :: cs) || includesChars cs needle

/-- The method `String.prototype.includes`. -/
def jsIncludes (s needle : String) : Bool := includesChars s.data needle.data

/-- The method `Array.prototype.slice(-n)`: the last `n` elements. -/
def sliceLast {α : Type} (n : Nat) (xs : List α) : List α := xs.drop (xs.length - n)

/-! ## Data model -/

/-- Role of a turn. -/
inductive Role where
  | system
  | user
  | assistant
  deriving DecidableEq, Repr

/-- A turn `{ role, content }`. The content of an assistant turn is whatever value
the response carried, so it is a `JsValue`. -/
structure Turn where
  role : Role
  content : JsValue

/-- Values of `connectionStatus`. -/
inductive ConnectionStatus where
  | connected
  | disconnected
  | error
  deriving DecidableEq, Repr

/-- The fields of `AIChatManager` that the chat request lifecycle reads or writes.
`chatMessages` is the list of message bubbles appended to the `#chat-messages`
element by `addUserMessage` and `addAIResponse`, oldest first, each recorded with the
argument it was created from; markup that is already in the page is not part of it. -/
structure AIChatManager where
  hasActiveChat : Bool
  apiKey : String
  conversationHistory : List Turn
  isProcessing : Bool
  lastRequestTime : Int
  connectionStatus : ConnectionStatus
  chatMessages : List Turn

/-- The field `apiUrl`, assigned in the constructor and never written again. -/
def AIChatManager.apiUrl (_ : AIChatManager) : String :=
  "https://api.groq.com/openai/v1/chat/completions"

/-- The field `model`, assigned in the constructor and never written again. -/
def AIChatManager.model (_ : AIChatManager) : String := "openai/gpt-oss-20b"

/-- The field `requestCooldown` (milliseconds), assigned in the constructor and never
written again. -/
def AIChatManager.requestCooldown (_ : AIChatManager) : Int := 1000

/-- The constructor of `AIChatManager`. The credential literal is taken as an argument. -/
def AIChatManager.new (apiKey : String) : AIChatManager :=
  { hasActiveChat := false
    apiKey := apiKey
    conversationHistory := []
    isProcessing := false
    lastRequestTime := 0
    connectionStatus := ConnectionStatus.connected
    chatMessages := [] }

/-- The JSON body of the chat request. -/
structure RequestBody where
  model : String
  messages : List Turn
  max_tokens : Nat
  temperature : Rat
  stream : Bool

/-- One call of `fetch`. -/
structure Request where
  url : String
  method : String
  authorization : String
  contentType : String
  body : RequestBody

/-- What `response.json()` settles to. -/
inductive BodyResult where
  | failed (message : String)
  | parsed (data : JsValue)

/-- A received HTTP response. -/
structure Response where
  status : Nat
  statusText : String
  body : BodyResult

/-- The property `response.ok`: the status is in the range 200 to 299. -/
def Response.ok (r : Response) : Bool := decide (200 ≤ r.status) && decide (r.status ≤ 299)

/-- What the promise returned by `fetch` settles to. -/
inductive FetchResult where
  | rejected (message : String)
  | resolved (response : Response)

/-! ## The controller -/

/-- The constant `systemPrompt` of `getAIResponse`. -/
def systemPrompt : String :=
  "You are an AI assistant for Codediera EduPro, a comprehensive school management system. You help potential customers understand our features, pricing, and capabilities. \n\nKey Information:\n- We offer school management software with features like student management, academic records, attendance tracking, grade management, parent portal, staff management, financial management, library system, communication hub, examination system, and advanced analytics.\n- Pricing: Starter (₦500,000) for up to 200 students, Professional (₦1,200,000) for up to 1,000 students, Enterprise (₦2,500,000) for unlimited students. Scratch card options available with 90% discounts.\n- Security: Enterprise-grade encryption, SSL certificates, multi-factor authentication, hosted on AWS (US) and Microsoft Azure (UK) with 99.9% uptime.\n- Contact: +2349150524245, info@codediera.com, WhatsApp available for inquiries.\n- Location: Owerri, Nigeria\n\nBe helpful, professional, and concise. If asked about something not related to our school management system, politely redirect the conversation back to our services."

/-- The method `addUserMessage`: one user bubble is appended. -/
def AIChatManager.addUserMessage (c : AIChatManager) (message : String) : AIChatManager :=
  { c with chatMessages := c.chatMessages ++ [⟨Role.user, JsValue.str message⟩] }

/-- The method `addAIResponse`: one assistant bubble is appended. -/
def AIChatManager.addAIResponse (c : AIChatManager) (response : JsValue) : AIChatManager :=
  { c with chatMessages := c.chatMessages ++ [⟨Role.assistant, response⟩] }

/-- First half of `getAIResponse`: the `messages` array is built from the current
window and the `fetch` call is made. -/
def getAIResponse_start (c : AIChatManager) (message : String) : Request :=
  let messages : List Turn :=
    [⟨Role.system, JsValue.str systemPrompt⟩] ++ c.conversationHistory ++
      [⟨Role.user, JsValue.str message⟩]
  { url := c.apiUrl
    method := "POST"
    authorization := "Bearer " ++ c.apiKey
    contentType := "application/json"
    body :=
      { model := c.model
        messages := messages
        max_tokens := 500
        temperature := 7 / 10
        stream := false } }

/-- The test `data.choices && data.choices[0] && data.choices[0].message` followed by
the read of `data.choices[0].message.content`: `error` is a thrown error, `ok none`
the else branch, `ok (some r)` the value of `aiResponse`. -/
def readContent (data : JsValue) : Except JsError (Option JsValue) := do
  let choices ← data.getField "choices"
  if !choices.truthy then return none
  let first ← choices.getIndex0
  if !first.truthy then return none
  let message ← first.getField "message"
  if !message.truthy then return none
  let content ← message.getField "content"
  return some content

/-- Second half of `getAIResponse`, run when `fetch` has settled: the status check,
the decoding of the body, the update of `conversationHistory`. The result is the
returned text or the error that is rethrown. -/
def getAIResponse_resume (c : AIChatManager) (message : String) (result : FetchResult) :
    AIChatManager × Except JsError JsValue :=
  match result with
  | FetchResult.rejected msg => (c, Except.error ⟨msg⟩)
  | FetchResult.resolved response =>
    if !response.ok then
      (c, Except.error
        ⟨"API request failed: " ++ toString response.status ++ " " ++ response.statusText⟩)
    else
      match response.body with
      | BodyResult.failed msg => (c, Except.error ⟨msg⟩)
      | BodyResult.parsed data =>
        match readContent data with
        | Except.error e => (c, Except.error e)
        | Except.ok none => (c, Except.error ⟨"Invalid response format from AI API"⟩)
        | Except.ok (some aiResponse) =>
          let pushed := c.conversationHistory ++
            [⟨Role.user, JsValue.str message⟩, ⟨Role.assistant, aiResponse⟩]
          let history := if pushed.length > 10 then sliceLast 10 pushed else pushed
          ({ c with conversationHistory := history }, Except.ok aiResponse)

/-- Which entry point a suspended call belongs to. -/
inductive Entry where
  | sendMessage
  | sendSuggestionMessage
  deriving DecidableEq, Repr

/-- A call suspended at `await fetch(...)`: the entry point that resumes, its local
`message` and the request that was issued. -/
structure Pending where
  entry : Entry
  message : String
  request : Request

/-- First half of `sendMessage`, up to the call of `fetch`; `input` is the value of the
chat input field and `now` the value of `Date.now()`. The second component is the
suspended call when a request was issued, `none` when the call returned early. -/
def sendMessage_start (c : AIChatManager) (now : Int) (input : String) :
    AIChatManager × Option Pending :=
  let message := jsTrim input
  if message = "" then (c, none) else
  let c := { c with hasActiveChat := true }
  if now - c.lastRequestTime < c.requestCooldown then
    (c.addAIResponse (JsValue.str "Please wait a moment before sending another message."), none)
  else if c.isProcessing then
    (c.addAIResponse (JsValue.str "I'm still processing your previous message. Please wait."),
      none)
  else
    let c := { c with isProcessing := true }
    let c := { c with lastRequestTime := now }
    let c := c.addUserMessage message
    (c, some ⟨Entry.sendMessage, message, getAIResponse_start c message⟩)

/-- First half of `sendSuggestionMessage`, up to the call of `fetch`. -/
def sendSuggestionMessage_start (c : AIChatManager) (now : Int) (message : String) :
    AIChatManager × Option Pending :=
  let c := { c with hasActiveChat := true }
  if now - c.lastRequestTime < c.requestCooldown then
    (c.addAIResponse (JsValue.str "Please wait a moment before sending another message."), none)
  else if c.isProcessing then
    (c.addAIResponse (JsValue.str "I'm still processing your previous message. Please wait."),
      none)
  else
    let c := { c with isProcessing := true }
    let c := { c with lastRequestTime := now }
    let c := c.addUserMessage message
    (c, some ⟨Entry.sendSuggestionMessage, message, getAIResponse_start c message⟩)

/-- Second half of `sendMessage`: the `try` / `catch` / `finally` around
`await this.getAIResponse(message)`, run when the request has settled. -/
def sendMessage_resume (c : AIChatManager) (message : String) (result : FetchResult) :
    AIChatManager :=
  let c :=
    match getAIResponse_resume c message result with
    | (c, Except.ok response) =>
      let c := c.addAIResponse response
      { c with connectionStatus := ConnectionStatus.connected }
    | (c, Except.error error) =>
      let c := { c with connectionStatus := ConnectionStatus.error }
      let errorMessage :=
        if jsIncludes error.message "401" then
          "Authentication error. Please contact support."
        else if jsIncludes error.message "429" then
          "Too many requests. Please wait a moment before trying again."
        else if jsIncludes error.message "500" then
          "Server error. Please try again in a few moments."
        else
          "I apologize, but I'm having trouble connecting to my AI service right now. Please try again in a moment or contact our support team for assistance."
      c.addAIResponse (JsValue.str errorMessage)
  { c with isProcessing := false }

/-- Second half of `sendSuggestionMessage`. -/
def sendSuggestionMessage_resume (c : AIChatManager) (message : String)
    (result : FetchResult) : AIChatManager :=
  let c :=
    match getAIResponse_resume c message result with
    | (c, Except.ok response) =>
      let c := c.addAIResponse response
      { c with connectionStatus := ConnectionStatus.connected }
    | (c, Except.error error) =>
      let c := { c with connectionStatus := ConnectionStatus.error }
      let errorMessage :=
        if jsIncludes error.message "401" then
          "Authentication error. Please contact support."
        else if jsIncludes error.message "429" then
          "Too many requests. Please wait a moment before trying again."
        else if jsIncludes error.message "500" then
          "Server error. Please try again in a few moments."
        else
          "I apologize, but I'm having trouble connecting to my AI service right now. Please try again in a moment."
      c.addAIResponse (JsValue.str errorMessage)
  { c with isProcessing := false }

/-- The JSON body of the request of `testAIConnection`: no `temperature`, no `stream`. -/
structure TestRequestBody where
  model : String
  messages : List Turn
  max_tokens : Nat

/-- The call of `fetch` made by `testAIConnection`. -/
structure TestRequest where
  url : String
  method : String
  authorization : String
  contentType : String
  body : TestRequestBody

/-- First half of `testAIConnection`, up to the call of `fetch`: the request is built and
sent, no field of the controller is read except the constants and the key, none is
written. -/
def testAIConnection_start (c : AIChatManager) : TestRequest :=
  { url := c.apiUrl
    method := "POST"
    authorization := "Bearer " ++ c.apiKey
    contentType := "application/json"
    body :=
      { model := c.model
        messages := [⟨Role.user, JsValue.str "Hello"⟩]
        max_tokens := 10 } }

/-- Second half of `testAIConnection`, run when `fetch` has settled; the body of the
response is not read. -/
def testAIConnection_resume (c : AIChatManager) (result : FetchResult) : AIChatManager :=
  match result with
  | FetchResult.resolved response =>
    if response.ok then
      { c with connectionStatus := ConnectionStatus.connected }
    else
      { c with connectionStatus := ConnectionStatus.error }
  | FetchResult.rejected _ =>
    { c with connectionStatus := ConnectionStatus.disconnected }

/-! ## Runs of the page -/

/-- First half of the entry point `entry`. -/
def submitStart : Entry → AIChatManager → Int → String → AIChatManager × Option Pending
  | Entry.sendMessage => sendMessage_start
  | Entry.sendSuggestionMessage => sendSuggestionMessage_start

/-- Second half of the entry point `entry`. -/
def submitResume : Entry → AIChatManager → String → FetchResult → AIChatManager
  | Entry.sendMessage => sendMessage_resume
  | Entry.sendSuggestionMessage => sendSuggestionMessage_resume

/-- The controller together with the chat requests of the page: `outbound` lists every
request issued so far, `pending` the suspended calls whose request has not settled,
`applied` the requests whose result has been applied, all oldest first. -/
structure Session where
  chat : AIChatManager
  outbound : List Request
  pending : List Pending
  applied : List Request

/-- The page right after `new AIChatManager()`. -/
def Session.fresh (apiKey : String) : Session :=
  { chat := AIChatManager.new apiKey, outbound := [], pending := [], applied := [] }

/-- What can happen next: a call of an entry point at time `now` with the given text, or
the request of the suspended call number `index` settling with `result`. -/
inductive Event where
  | submit (entry : Entry) (now : Int) (text : String)
  | resolve (index : Nat) (result : FetchResult)

/-- Record the outcome of the first half of an entry point. -/
def Session.afterStart (s : Session) (r : AIChatManager × Option Pending) : Session :=
  match r.2 with
  | none => { s with chat := r.1 }
  | some p =>
    { s with chat := r.1, outbound := s.outbound ++ [p.request], pending := s.pending ++ [p] }

/-- One event. -/
def step (s : Session) : Event → Session
  | Event.submit entry now text => s.afterStart (submitStart entry s.chat now text)
  | Event.resolve index result =>
    match s.pending.get? index with
    | none => s
    | some p =>
      { s with chat := submitResume p.entry s.chat p.message result,
               pending := s.pending.eraseIdx index,
               applied := s.applied ++ [p.request] }

/-- The session after a sequence of events on a fresh page. -/
def run (apiKey : String) (events : List Event) : Session :=
  events.foldl step (Session.fresh apiKey)

/-! ## Auxiliary definitions for the statements -/

/-- The two turns of a completed exchange. -/
def exchangeTurns (message : String) (reply : JsValue) : List Turn :=
  [⟨Role.user, JsValue.str message⟩, ⟨Role.assistant, reply⟩]

/-- The local `message` of an entry point called with `text`. -/
def messageOf : Entry → String → String
  | Entry.sendMessage, text => jsTrim text
  | Entry.sendSuggestionMessage, text => text

/-- The synthetic turn of a cooldown rejection. -/
def pleaseWaitTurn : Turn :=
  ⟨Role.assistant, JsValue.str "Please wait a moment before sending another message."⟩

/-- The synthetic turn of a rejection while a request is in flight. -/
def stillProcessingTurn : Turn :=
  ⟨Role.assistant, JsValue.str "I'm still processing your previous message. Please wait."⟩

/-- A settled request that counts as a failed exchange: a transport exception, a status
outside 200 to 299, a body that cannot be decoded, or a decoded body in which the code
finds no first choice with a message. -/
def FetchResult.isFailure : FetchResult → Bool
  | FetchResult.rejected _ => true
  | FetchResult.resolved response =>
    !response.ok ||
      match response.body with
      | BodyResult.failed _ => true
      | BodyResult.parsed data =>
        match readContent data with
        | Except.ok (some _) => false
        | _ => true

/-- The response `200 OK` with the body `{choices: [{message: {content}}]}`. -/
def successResponse (content : JsValue) : Response :=
  { status := 200
    statusText := "OK"
    body := BodyResult.parsed
      (JsValue.obj [("choices", JsValue.arr
        [JsValue.obj [("message", JsValue.obj [("content", content)])]])]) }

/-- The window after a successful exchange. -/
def pushExchange (w : List Turn) (message : String) (reply : JsValue) : List Turn :=
  if (w ++ exchangeTurns message reply).length > 10 then
    sliceLast 10 (w ++ exchangeTurns message reply)
  else w ++ exchangeTurns message reply

/-- The text shown by the `catch` block of `entry` for an error with the given message. -/
def errorText (entry : Entry) (message : String) : String :=
  if jsIncludes message "401" then "Authentication error. Please contact support."
  else if jsIncludes message "429" then
    "Too many requests. Please wait a moment before trying again."
  else if jsIncludes message "500" then "Server error. Please try again in a few moments."
  else
    match entry with
    | Entry.sendMessage =>
      "I apologize, but I'm having trouble connecting to my AI service right now. Please try again in a moment or contact our support team for assistance."
    | Entry.sendSuggestionMessage =>
      "I apologize, but I'm having trouble connecting to my AI service right now. Please try again in a moment."

/-- The call returns at `if (!message) return;`. -/
def Ignored (entry : Entry) (text : String) : Prop :=
  entry = Entry.sendMessage ∧ jsTrim text = ""

instance (entry : Entry) (text : String) : Decidable (Ignored entry text) := by
  unfold Ignored; infer_instance

/-- The controller after an accepted call, at the moment `fetch` is called. -/
def acceptedState (c : AIChatManager) (now : Int) (message : String) : AIChatManager :=
  { c with hasActiveChat := true, isProcessing := true, lastRequestTime := now,
           chatMessages := c.chatMessages ++ [⟨Role.user, JsValue.str message⟩] }

/-- One submission together with the result its request settles to. -/
structure Exchange where
  entry : Entry
  now : Int
  text : String
  result : FetchResult

/-- A call of an entry point whose request settles before anything else happens:
the completed controller, the user text and the reply when the call was accepted and
`getAIResponse` returned, `none` otherwise. -/
def exchange (c : AIChatManager) (x : Exchange) : Option (AIChatManager × String × JsValue) :=
  match submitStart x.entry c x.now x.text with
  | (_, none) => none
  | (c1, some p) =>
    match (getAIResponse_resume c1 p.message x.result).2 with
    | Except.error _ => none
    | Except.ok a => some (submitResume p.entry c1 p.message x.result, p.message, a)

/-- A sequence of successful exchanges, one after the other: the final controller and
the list of (user text, reply) pairs in order, `none` as soon as one of them is not a
successful exchange. -/
def exchanges (c : AIChatManager) : List Exchange → Option (AIChatManager × List (String × JsValue))
  | [] => some (c, [])
  | x :: rest =>
    match exchange c x with
    | none => none
    | some (c1, u, a) =>
      match exchanges c1 rest with
      | none => none
      | some (c2, log) => some (c2, (u, a) :: log)

/-- The turns of a list of exchanges, in order. -/
def turnsOf (log : List (String × JsValue)) : List Turn :=
  log.flatMap (fun x => exchangeTurns x.1 x.2)

/-- Eleven submissions two seconds apart, each answered with a well-formed 200 response. -/
def elevenExchanges : List Exchange :=
  [
    ⟨Entry.sendMessage, 2000, " question 1 ",
      FetchResult.resolved (successResponse (JsValue.str "answer 1"))⟩,
    ⟨Entry.sendSuggestionMessage, 4000, "question 2",
      FetchResult.resolved (successResponse (JsValue.str "answer 2"))⟩,
    ⟨Entry.sendMessage, 6000, " question 3 ",
      FetchResult.resolved (successResponse (JsValue.str "answer 3"))⟩,
    ⟨Entry.sendSuggestionMessage, 8000, "question 4",
      FetchResult.resolved (successResponse (JsValue.str "answer 4"))⟩,
    ⟨Entry.sendMessage, 10000, " question 5 ",
      FetchResult.resolved (successResponse (JsValue.str "answer 5"))⟩,
    ⟨Entry.sendSuggestionMessage, 12000, "question 6",
      FetchResult.resolved (successResponse (JsValue.str "answer 6"))⟩,
    ⟨Entry.sendMessage, 14000, " question 7 ",
      FetchResult.resolved (successResponse (JsValue.str "answer 7"))⟩,
    ⟨Entry.sendSuggestionMessage, 16000, "question 8",
      FetchResult.resolved (successResponse (JsValue.str "answer 8"))⟩,
    ⟨Entry.sendMessage, 18000, " question 9 ",
      FetchResult.resolved (successResponse (JsValue.str "answer 9"))⟩,
    ⟨Entry.sendSuggestionMessage, 20000, "question 10",
      FetchResult.resolved (successResponse (JsValue.str "answer 10"))⟩,
    ⟨Entry.sendMessage, 22000, " question 11 ",
      FetchResult.resolved (successResponse (JsValue.str "answer 11"))⟩ ]

/-- The user texts and replies of `elevenExchanges`. -/
def elevenLog : List (String × JsValue) :=
  [("question 1", JsValue.str "answer 1"),
    ("question 2", JsValue.str "answer 2"),
    ("question 3", JsValue.str "answer 3"),
    ("question 4", JsValue.str "answer 4"),
    ("question 5", JsValue.str "answer 5"),
    ("question 6", JsValue.str "answer 6"),
    ("question 7", JsValue.str "answer 7"),
    ("question 8", JsValue.str "answer 8"),
    ("question 9", JsValue.str "answer 9"),
    ("question 10", JsValue.str "answer 10"),
    ("question 11", JsValue.str "answer 11")]

/-- The controller after `elevenExchanges` on a fresh page. -/
def elevenFinal : AIChatManager :=
  { hasActiveChat := true
    apiKey := "key"
    conversationHistory := turnsOf (elevenLog.drop 6)
    isProcessing := false
    lastRequestTime := 22000
    connectionStatus := ConnectionStatus.connected
    chatMessages := turnsOf elevenLog }

/-- A window of ten distinct turns, used as a concrete full window. -/
def fullWindow : List Turn :=
  turnsOf [("q1", JsValue.str "a1"), ("q2", JsValue.str "a2"), ("q3", JsValue.str "a3"),
    ("q4", JsValue.str "a4"), ("q5", JsValue.str "a5")]

/-- A controller whose window is `fullWindow`, with a request in flight. -/
def fullController : AIChatManager :=
  { hasActiveChat := true
    apiKey := "key"
    conversationHistory := fullWindow
    isProcessing := true
    lastRequestTime := 9000
    connectionStatus := ConnectionStatus.connected
    chatMessages := fullWindow ++ [⟨Role.user, JsValue.str "q6"⟩] }

/-- A well-formed 200 response with the single choice `a6`. -/
def okResult : FetchResult :=
  FetchResult.resolved (successResponse (JsValue.str "a6"))

/-- The single-flight invariant of a session. -/
def SingleFlight (s : Session) : Prop :=
  s.pending.length ≤ 1 ∧ (s.chat.isProcessing = true ↔ s.pending ≠ []) ∧
    s.outbound = s.applied ++ s.pending.map Pending.request

/-- The controller right after `sendMessage` was accepted at time 5000 on a fresh page
with the input `Hello`: its request is in flight. -/
def inFlightController : AIChatManager :=
  (sendMessage_start (AIChatManager.new "key") 5000 "Hello").1

/-- What `getAIResponse` returns or throws once its request has settled; this part of
its second half does not read the controller. -/
def replyOf : FetchResult → Except JsError JsValue
  | FetchResult.rejected msg => Except.error ⟨msg⟩
  | FetchResult.resolved response =>
    if !response.ok then
      Except.error
        ⟨"API request failed: " ++ toString response.status ++ " " ++ response.statusText⟩
    else
      match response.body with
      | BodyResult.failed msg => Except.error ⟨msg⟩
      | BodyResult.parsed data =>
        match readContent data with
        | Except.error e => Except.error e
        | Except.ok none => Except.error ⟨"Invalid response format from AI API"⟩
        | Except.ok (some aiResponse) => Except.ok aiResponse

/-- The message of the error thrown for a response whose `ok` is false. -/
def statusErrorMessage (status : Nat) (statusText : String) : String :=
  "API request failed: " ++ toString status ++ " " ++ statusText

/-- The fallback text of the `catch` block of each entry point. -/
def genericErrorMessage : Entry → String
  | Entry.sendMessage =>
    "I apologize, but I'm having trouble connecting to my AI service right now. Please try again in a moment or contact our support team for assistance."
  | Entry.sendSuggestionMessage =>
    "I apologize, but I'm having trouble connecting to my AI service right now. Please try again in a moment."

/-- The text shown for an error whose message contains `401`. -/
def authenticationText : String := "Authentication error. Please contact support."

/-- The text shown for an error whose message contains `429` and not `401`. -/
def rateLimitText : String := "Too many requests. Please wait a moment before trying again."

/-- The text shown for an error whose message contains `500` and neither `401` nor `429`. -/
def serverErrorText : String := "Server error. Please try again in a few moments."

/-- The payload has no `choices`, no first choice or no `message`: one of the reads
`data.choices`, `data.choices[0]`, `data.choices[0].message` gives a falsy value. -/
def LacksMessage (data : JsValue) : Prop :=
  ∃ choices, data.getField "choices" = Except.ok choices ∧
    (choices.truthy = false ∨
      ∃ first, choices.getIndex0 = Except.ok first ∧
        (first.truthy = false ∨
          ∃ message, first.getField "message" = Except.ok message ∧ message.truthy = false))

/-- The response `200 OK` with the body `{choices: [{message: {}}]}`: the message has no
`content`. -/
def noContentResult : FetchResult :=
  FetchResult.resolved
    { status := 200
      statusText := "OK"
      body := BodyResult.parsed
        (JsValue.obj [("choices", JsValue.arr [JsValue.obj [("message", JsValue.obj [])]])]) }

/-- Every turn of the window of the session is a user turn or an assistant turn. -/
def WindowRoles (s : Session) : Prop :=
  ∀ t ∈ s.chat.conversationHistory, t.role = Role.user ∨ t.role = Role.assistant

/-- A call of an entry point whose request settles before anything else happens, whatever
the result: the completed controller, `none` when the call was not accepted. -/
def settle (c : AIChatManager) (x : Exchange) : Option AIChatManager :=
  match submitStart x.entry c x.now x.text with
  | (_, none) => none
  | (c1, some p) => some (submitResume p.entry c1 p.message x.result)

/-- A sequence of submissions without overlap: each request settles before the next
call. `none` as soon as one call is not accepted. -/
def settleAll : AIChatManager → List Exchange → Option AIChatManager
  | c, [] => some c
  | c, x :: rest =>
    match settle c x with
    | none => none
    | some c1 => settleAll c1 rest

/-- The terminal assistant turn of a submission: the reply on success, the text chosen
from the error message on failure. -/
def terminalTurn (x : Exchange) : Turn :=
  match replyOf x.result with
  | Except.ok reply => ⟨Role.assistant, reply⟩
  | Except.error e => ⟨Role.assistant, JsValue.str (errorText x.entry e.message)⟩

/-- The two turns a completed submission adds to the transcript. -/
def submissionTurns (x : Exchange) : List Turn :=
  [⟨Role.user, JsValue.str (messageOf x.entry x.text)⟩, terminalTurn x]

/-- The submissions are at least 1000 ms apart, the first at least 1000 ms after `last`. -/
def spaced (last : Int) : List Exchange → Bool
  | [] => true
  | x :: rest => decide (x.now - last ≥ 1000) && spaced x.now rest

/-- Three submissions two seconds apart: one answered, one refused with status 429, one
whose request could not be sent. -/
def threeSubmissions : List Exchange :=
  [ ⟨Entry.sendMessage, 2000, "Hello", FetchResult.resolved (successResponse (JsValue.str "Hi there"))⟩,
    ⟨Entry.sendSuggestionMessage, 4000, "Pricing",
      FetchResult.resolved ⟨429, "Too Many Requests", BodyResult.failed "no body"⟩⟩,
    ⟨Entry.sendMessage, 6000, "Thanks", FetchResult.rejected "Failed to fetch"⟩ ]

/-- Number of calls in `events`, played from `s`, that issue a request. -/
def acceptedCount (s : Session) : List Event → Nat
  | [] => 0
  | Event.submit entry now text :: rest =>
    (if (submitStart entry s.chat now text).2.isSome then 1 else 0) +
      acceptedCount (step s (Event.submit entry now text)) rest
  | Event.resolve index result :: rest =>
    acceptedCount (step s (Event.resolve index result)) rest

/-- The list is a sequence of complete pairs: a user turn followed by an assistant turn,
again and again. -/
def PairedWindow : List Turn → Prop
  | [] => True
  | [_] => False
  | a :: b :: rest => a.role = Role.user ∧ b.role = Role.assistant ∧ PairedWindow rest

/-- The times of the calls in `events`, played from `s`, that issue a request, in order. -/
def acceptedTimes (s : Session) : List Event → List Int
  | [] => []
  | Event.submit entry now text :: rest =>
    (if (submitStart entry s.chat now text).2.isSome then [now] else []) ++
      acceptedTimes (step s (Event.submit entry now text)) rest
  | Event.resolve index result :: rest =>
    acceptedTimes (step s (Event.resolve index result)) rest

/-- A short run: a call accepted at 5000, a call rejected at 5500, the completion of the
first request, a call accepted at 6000. -/
def sampleEvents : List Event :=
  [Event.submit Entry.sendMessage 5000 "Hello",
    Event.submit Entry.sendSuggestionMessage 5500 "Pricing",
    Event.resolve 0 (FetchResult.rejected "Failed to fetch"),
    Event.submit Entry.sendSuggestionMessage 6000 "Pricing"]

/-- One completed exchange on a fresh page: `Hello` accepted at 5000 and answered with
`Hi there`. -/
def oneExchangeEvents : List Event :=
  [Event.submit Entry.sendMessage 5000 "Hello",
    Event.resolve 0 (FetchResult.resolved (successResponse (JsValue.str "Hi there")))]

/-! ## Basic facts about the two halves -/

theorem sliceLast_length {α : Type} (n : Nat) (xs : List α) :
    (sliceLast n xs).length = min n xs.length := by
  unfold sliceLast
  rw [List.length_drop]
  omega

theorem sliceLast_of_le {α : Type} (n : Nat) (xs : List α) (h : xs.length ≤ n) :
    sliceLast n xs = xs := by
  unfold sliceLast
  have : xs.length - n = 0 := by omega
  rw [this, List.drop_zero]

theorem pushExchange_eq (w : List Turn) (message : String) (reply : JsValue) :
    pushExchange w message reply = sliceLast 10 (w ++ exchangeTurns message reply) := by
  unfold pushExchange
  split
  · rfl
  · rw [sliceLast_of_le]; omega

theorem pushExchange_length (w : List Turn) (message : String) (reply : JsValue) :
    (pushExchange w message reply).length ≤ 10 := by
  rw [pushExchange_eq, sliceLast_length]
  omega

/-- The second half of `getAIResponse` either fails and leaves the controller as it
was, or returns the reply and replaces the window by `pushExchange`. -/
theorem getAIResponse_resume_cases (c : AIChatManager) (message : String)
    (result : FetchResult) :
    (∃ e, getAIResponse_resume c message result = (c, Except.error e)) ∨
    (∃ r, getAIResponse_resume c message result =
      ({ c with conversationHistory := pushExchange c.conversationHistory message r },
        Except.ok r)) := by
  unfold getAIResponse_resume
  cases result with
  | rejected msg => exact Or.inl ⟨_, rfl⟩
  | resolved response =>
    simp only
    split
    · exact Or.inl ⟨_, rfl⟩
    · cases hb : response.body with
      | failed msg => exact Or.inl ⟨_, rfl⟩
      | parsed data =>
        simp only
        cases hr : readContent data with
        | error e => exact Or.inl ⟨_, rfl⟩
        | ok o =>
          cases o with
          | none => exact Or.inl ⟨_, rfl⟩
          | some r => exact Or.inr ⟨r, rfl⟩

theorem submitResume_error (entry : Entry) (c : AIChatManager) (message : String)
    (result : FetchResult) (e : JsError)
    (h : getAIResponse_resume c message result = (c, Except.error e)) :
    submitResume entry c message result =
      { c with connectionStatus := ConnectionStatus.error,
               chatMessages := c.chatMessages ++
                 [⟨Role.assistant, JsValue.str (errorText entry e.message)⟩],
               isProcessing := false } := by
  cases entry <;>
    simp only [submitResume, sendMessage_resume, sendSuggestionMessage_resume, h,
      AIChatManager.addAIResponse, errorText]

theorem submitResume_ok (entry : Entry) (c c1 : AIChatManager) (message : String)
    (result : FetchResult) (r : JsValue)
    (h : getAIResponse_resume c message result = (c1, Except.ok r)) :
    submitResume entry c message result =
      { c1 with chatMessages := c1.chatMessages ++ [⟨Role.assistant, r⟩],
                connectionStatus := ConnectionStatus.connected,
                isProcessing := false } := by
  cases entry <;>
    simp only [submitResume, sendMessage_resume, sendSuggestionMessage_resume, h,
      AIChatManager.addAIResponse]

theorem submitStart_ignored (c : AIChatManager) (now : Int) (text : String)
    (h : jsTrim text = "") : submitStart Entry.sendMessage c now text = (c, none) := by
  simp [submitStart, sendMessage_start, h]

theorem submitStart_cooldown (entry : Entry) (c : AIChatManager) (now : Int) (text : String)
    (hi : ¬ Ignored entry text) (h : now - c.lastRequestTime < 1000) :
    submitStart entry c now text =
      ({ c with hasActiveChat := true, chatMessages := c.chatMessages ++ [pleaseWaitTurn] },
        none) := by
  cases entry
  · have hne : jsTrim text ≠ "" := fun h0 => hi ⟨rfl, h0⟩
    simp [submitStart, sendMessage_start, hne, AIChatManager.requestCooldown, h,
      AIChatManager.addAIResponse, pleaseWaitTurn]
  · simp [submitStart, sendSuggestionMessage_start, AIChatManager.requestCooldown, h,
      AIChatManager.addAIResponse, pleaseWaitTurn]

theorem submitStart_busy (entry : Entry) (c : AIChatManager) (now : Int) (text : String)
    (hi : ¬ Ignored entry text) (h : ¬ now - c.lastRequestTime < 1000)
    (hp : c.isProcessing = true) :
    submitStart entry c now text =
      ({ c with hasActiveChat := true,
                chatMessages := c.chatMessages ++ [stillProcessingTurn] }, none) := by
  cases entry
  · have hne : jsTrim text ≠ "" := fun h0 => hi ⟨rfl, h0⟩
    simp [submitStart, sendMessage_start, hne, AIChatManager.requestCooldown, h, hp,
      AIChatManager.addAIResponse, stillProcessingTurn]
  · simp [submitStart, sendSuggestionMessage_start, AIChatManager.requestCooldown, h, hp,
      AIChatManager.addAIResponse, stillProcessingTurn]

theorem submitStart_accept (entry : Entry) (c : AIChatManager) (now : Int) (text : String)
    (hi : ¬ Ignored entry text) (h : ¬ now - c.lastRequestTime < 1000)
    (hp : c.isProcessing = false) :
    submitStart entry c now text =
      (acceptedState c now (messageOf entry text),
        some ⟨entry, messageOf entry text,
          getAIResponse_start (acceptedState c now (messageOf entry text))
            (messageOf entry text)⟩) := by
  cases entry
  · have hne : jsTrim text ≠ "" := fun h0 => hi ⟨rfl, h0⟩
    simp [submitStart, sendMessage_start, hne, AIChatManager.requestCooldown, h, hp,
      AIChatManager.addUserMessage, acceptedState, messageOf]
  · simp [submitStart, sendSuggestionMessage_start, AIChatManager.requestCooldown, h, hp,
      AIChatManager.addUserMessage, acceptedState, messageOf]

/-- The four ways the first half of an entry point can go. -/
theorem submitStart_cases (entry : Entry) (c : AIChatManager) (now : Int) (text : String) :
    (Ignored entry text ∧ submitStart entry c now text = (c, none)) ∨
    (¬ Ignored entry text ∧ now - c.lastRequestTime < 1000 ∧
      submitStart entry c now text =
        ({ c with hasActiveChat := true,
                  chatMessages := c.chatMessages ++ [pleaseWaitTurn] }, none)) ∨
    (¬ Ignored entry text ∧ ¬ now - c.lastRequestTime < 1000 ∧ c.isProcessing = true ∧
      submitStart entry c now text =
        ({ c with hasActiveChat := true,
                  chatMessages := c.chatMessages ++ [stillProcessingTurn] }, none)) ∨
    (¬ Ignored entry text ∧ ¬ now - c.lastRequestTime < 1000 ∧ c.isProcessing = false ∧
      submitStart entry c now text =
        (acceptedState c now (messageOf entry text),
          some ⟨entry, messageOf entry text,
            getAIResponse_start (acceptedState c now (messageOf entry text))
              (messageOf entry text)⟩)) := by
  by_cases hi : Ignored entry text
  · left
    obtain ⟨he, ht⟩ := hi
    subst he
    exact ⟨⟨rfl, ht⟩, submitStart_ignored c now text ht⟩
  · right
    by_cases h : now - c.lastRequestTime < 1000
    · exact Or.inl ⟨hi, h, submitStart_cooldown entry c now text hi h⟩
    · right
      by_cases hp : c.isProcessing = true
      · exact Or.inl ⟨hi, h, hp, submitStart_busy entry c now text hi h hp⟩
      · have hp0 : c.isProcessing = false := by simpa using hp
        exact Or.inr ⟨hi, h, hp0, submitStart_accept entry c now text hi h hp0⟩

theorem submitStart_history (entry : Entry) (c : AIChatManager) (now : Int) (text : String) :
    (submitStart entry c now text).1.conversationHistory = c.conversationHistory := by
  rcases submitStart_cases entry c now text with
    ⟨_, h⟩ | ⟨_, _, h⟩ | ⟨_, _, _, h⟩ | ⟨_, _, _, h⟩ <;> simp only [h, acceptedState]

theorem submitResume_history (entry : Entry) (c : AIChatManager) (message : String)
    (result : FetchResult) :
    (submitResume entry c message result).conversationHistory =
      (getAIResponse_resume c message result).1.conversationHistory := by
  rcases getAIResponse_resume_cases c message result with ⟨e, h⟩ | ⟨r, h⟩
  · rw [submitResume_error entry c message result e h, h]
  · rw [submitResume_ok entry c _ message result r h, h]

theorem submitResume_history_length (entry : Entry) (c : AIChatManager) (message : String)
    (result : FetchResult) (h : c.conversationHistory.length ≤ 10) :
    (submitResume entry c message result).conversationHistory.length ≤ 10 := by
  rw [submitResume_history]
  rcases getAIResponse_resume_cases c message result with ⟨e, h1⟩ | ⟨r, h1⟩
  · rw [h1]; exact h
  · rw [h1]; exact pushExchange_length _ _ _

theorem foldl_step_invariant (P : Session → Prop) (hstep : ∀ s e, P s → P (step s e)) :
    ∀ (events : List Event) (s : Session), P s → P (events.foldl step s) := by
  intro events
  induction events with
  | nil => intro s hs; exact hs
  | cons e rest ih => intro s hs; exact ih (step s e) (hstep s e hs)

theorem step_history_length (s : Session) (e : Event)
    (h : s.chat.conversationHistory.length ≤ 10) :
    (step s e).chat.conversationHistory.length ≤ 10 := by
  cases e with
  | submit entry now text =>
    have hh := submitStart_history entry s.chat now text
    simp only [step, Session.afterStart]
    split <;> (simp only; rw [hh]; exact h)
  | resolve index result =>
    simp only [step]
    split
    · exact h
    · exact submitResume_history_length _ _ _ _ h

theorem window_at_most_ten_aux (apiKey : String) (events : List Event) :
    (run apiKey events).chat.conversationHistory.length ≤ 10 := by
  unfold run
  apply foldl_step_invariant (fun s => s.chat.conversationHistory.length ≤ 10)
  · intro s e hs; exact step_history_length s e hs
  · simp [Session.fresh, AIChatManager.new]

/-- The settled request is a failure exactly when `getAIResponse` throws. -/
theorem isFailure_iff_error (c : AIChatManager) (message : String) (result : FetchResult) :
    result.isFailure = true ↔
      ∃ e, getAIResponse_resume c message result = (c, Except.error e) := by
  unfold FetchResult.isFailure getAIResponse_resume
  cases result with
  | rejected msg => simp
  | resolved response =>
    simp only
    cases hok : response.ok
    · simp
    · cases hb : response.body with
      | failed msg => simp
      | parsed data =>
        cases hr : readContent data with
        | error e => simp [hr]
        | ok o =>
          cases o with
          | none => simp [hr]
          | some r => simp [hr]

/-! ## The claims -/

/-- C1: in every state reached from a freshly constructed controller by any sequence of
submissions through either entry point and of request completions with any outcome, the
history window `conversationHistory` holds at most 10 turns. -/
theorem window_at_most_ten (apiKey : String) (events : List Event) :
    (run apiKey events).chat.conversationHistory.length ≤ 10 := by
  unfold run
  apply foldl_step_invariant (fun s => s.chat.conversationHistory.length ≤ 10)
  · intro s e hs; exact step_history_length s e hs
  · simp [Session.fresh, AIChatManager.new]

theorem sliceLast_sliceLast_append {α : Type} (n : Nat) (xs ys : List α) :
    sliceLast n (sliceLast n xs ++ ys) = sliceLast n (xs ++ ys) := by
  unfold sliceLast
  have hk : xs.length - n ≤ xs.length := Nat.sub_le _ _
  rw [← List.drop_append_of_le_length hk, List.drop_drop]
  congr 1
  simp only [List.length_append, List.length_drop]
  omega

theorem turnsOf_cons (x : String × JsValue) (log : List (String × JsValue)) :
    turnsOf (x :: log) = exchangeTurns x.1 x.2 ++ turnsOf log := by
  simp [turnsOf]

theorem turnsOf_length (log : List (String × JsValue)) :
    (turnsOf log).length = 2 * log.length := by
  induction log with
  | nil => rfl
  | cons x rest ih =>
    rw [turnsOf_cons, List.length_append, ih, List.length_cons]
    simp [exchangeTurns]
    omega

theorem turnsOf_drop (k : Nat) (log : List (String × JsValue)) :
    (turnsOf log).drop (2 * k) = turnsOf (log.drop k) := by
  induction k generalizing log with
  | zero => simp
  | succ k ih =>
    cases log with
    | nil => simp [turnsOf]
    | cons x rest =>
      rw [turnsOf_cons, List.drop_succ_cons, ← ih rest]
      have : 2 * (k + 1) = 2 * k + 1 + 1 := by omega
      rw [this]
      rfl

theorem exchange_some (c c1 : AIChatManager) (x : Exchange) (u : String) (a : JsValue)
    (h : exchange c x = some (c1, u, a)) :
    c1.conversationHistory = pushExchange c.conversationHistory u a ∧
    c1.chatMessages = c.chatMessages ++ exchangeTurns u a := by
  unfold exchange at h
  rcases submitStart_cases x.entry c x.now x.text with
    ⟨_, hs⟩ | ⟨_, _, hs⟩ | ⟨_, _, _, hs⟩ | ⟨_, _, _, hs⟩
  · rw [hs] at h; simp at h
  · rw [hs] at h; simp at h
  · rw [hs] at h; simp at h
  · rw [hs] at h
    simp only at h
    rcases getAIResponse_resume_cases (acceptedState c x.now (messageOf x.entry x.text))
      (messageOf x.entry x.text) x.result with ⟨e, hr⟩ | ⟨r, hr⟩
    · rw [hr] at h; simp at h
    · rw [submitResume_ok _ _ _ _ _ r hr, hr] at h
      simp only [Option.some.injEq, Prod.mk.injEq] at h
      obtain ⟨h1, h2, h3⟩ := h
      subst h1 h2 h3
      simp [acceptedState, exchangeTurns]

theorem exchanges_some (xs : List Exchange) :
    ∀ (c c2 : AIChatManager) (log : List (String × JsValue)),
      c.conversationHistory.length ≤ 10 →
      exchanges c xs = some (c2, log) →
      log.length = xs.length ∧
      c2.conversationHistory = sliceLast 10 (c.conversationHistory ++ turnsOf log) ∧
      c2.chatMessages = c.chatMessages ++ turnsOf log := by
  induction xs with
  | nil =>
    intro c c2 log hc h
    simp only [exchanges, Option.some.injEq, Prod.mk.injEq] at h
    obtain ⟨h1, h2⟩ := h
    subst h1 h2
    refine ⟨rfl, ?_, ?_⟩
    · rw [sliceLast_of_le]
      · simp [turnsOf]
      · simpa [turnsOf] using hc
    · simp [turnsOf]
  | cons x rest ih =>
    intro c c2 log hc h
    unfold exchanges at h
    cases hx : exchange c x with
    | none => rw [hx] at h; simp at h
    | some t =>
      obtain ⟨c1, u, a⟩ := t
      rw [hx] at h
      simp only at h
      cases hrest : exchanges c1 rest with
      | none => rw [hrest] at h; simp at h
      | some t2 =>
        obtain ⟨c3, log1⟩ := t2
        rw [hrest] at h
        simp only [Option.some.injEq, Prod.mk.injEq] at h
        obtain ⟨h1, h2⟩ := h
        subst h1 h2
        obtain ⟨hw1, ht1⟩ := exchange_some c c1 x u a hx
        have hc1 : c1.conversationHistory.length ≤ 10 := by
          rw [hw1]; exact pushExchange_length _ _ _
        obtain ⟨hl, hw, ht⟩ := ih c1 c3 log1 hc1 hrest
        refine ⟨by simp [hl], ?_, ?_⟩
        · rw [hw, hw1, pushExchange_eq, turnsOf_cons]
          simp only [sliceLast_sliceLast_append, List.append_assoc]
        · rw [ht, ht1, turnsOf_cons, List.append_assoc]

theorem user_turn_mem_turnsOf (u : String) (log : List (String × JsValue)) :
    (⟨Role.user, JsValue.str u⟩ : Turn) ∈ turnsOf log ↔ ∃ y ∈ log, y.1 = u := by
  simp only [turnsOf, List.mem_flatMap, exchangeTurns, List.mem_cons, Turn.mk.injEq,
    JsValue.str.injEq, true_and, List.mem_singleton, false_and, or_false, List.not_mem_nil]
  constructor
  · rintro ⟨y, hy, h | h⟩
    · exact ⟨y, hy, h.symm⟩
    · exact absurd h.1 (by decide)
  · rintro ⟨y, hy, h⟩; exact ⟨y, hy, Or.inl h.symm⟩

/-- C2: starting from a fresh controller, after `n` successful exchanges accepted in
order the history window is exactly the turns of the last `min n 5` exchanges in their
original order, and the visible transcript holds the turns of all `n` exchanges in
order; with `n = 11` the window is the turns of exchanges 7 to 11, the transcript has
22 turns and still shows the first user turn, which the window holds only if one of
the exchanges 7 to 11 repeats its text. -/
theorem window_is_last_five_exchanges (apiKey : String) (xs : List Exchange)
    (c : AIChatManager) (log : List (String × JsValue))
    (h : exchanges (AIChatManager.new apiKey) xs = some (c, log)) :
    log.length = xs.length ∧
    c.conversationHistory = turnsOf (log.drop (log.length - min log.length 5)) ∧
    c.chatMessages = turnsOf log ∧
    (xs.length = 11 →
      c.conversationHistory = turnsOf (log.drop 6) ∧ c.chatMessages.length = 22 ∧
      ∀ u a, log.head? = some (u, a) →
        (⟨Role.user, JsValue.str u⟩ : Turn) ∈ c.chatMessages ∧
        ((∀ y ∈ log.drop 6, y.1 ≠ u) →
          (⟨Role.user, JsValue.str u⟩ : Turn) ∉ c.conversationHistory)) := by
  obtain ⟨hl, hw, ht⟩ := exchanges_some xs _ c log (by simp [AIChatManager.new]) h
  have hw2 : c.conversationHistory = turnsOf (log.drop (log.length - min log.length 5)) := by
    rw [hw]
    simp only [AIChatManager.new, sliceLast, List.nil_append]
    rw [← turnsOf_drop, turnsOf_length]
    congr 1
    omega
  have ht2 : c.chatMessages = turnsOf log := by
    rw [ht]; simp [AIChatManager.new]
  refine ⟨hl, hw2, ht2, ?_⟩
  intro h11
  rw [← hl] at h11
  have hw3 : c.conversationHistory = turnsOf (log.drop 6) := by rw [hw2, h11]; rfl
  refine ⟨hw3, by rw [ht2, turnsOf_length, h11], ?_⟩
  intro u a hhead
  constructor
  · rw [ht2, user_turn_mem_turnsOf]
    exact ⟨(u, a), List.mem_of_mem_head? hhead, rfl⟩
  · intro hne hmem
    rw [hw3, user_turn_mem_turnsOf] at hmem
    obtain ⟨y, hy, hyu⟩ := hmem
    exact hne y hy hyu

theorem window_is_last_five_exchanges_witness :
    exchanges (AIChatManager.new "key") elevenExchanges = some (elevenFinal, elevenLog) ∧
    elevenFinal.conversationHistory = turnsOf (elevenLog.drop 6) ∧
    elevenFinal.chatMessages.length = 22 ∧
    elevenFinal.conversationHistory.length = 10 ∧
    (⟨Role.user, JsValue.str "question 1"⟩ : Turn) ∈ elevenFinal.chatMessages ∧
    (⟨Role.user, JsValue.str "question 1"⟩ : Turn) ∉ elevenFinal.conversationHistory :=
  have key := (window_is_last_five_exchanges "key" elevenExchanges elevenFinal elevenLog
    rfl).2.2.2 rfl
  ⟨rfl, key.1, key.2.1, rfl,
    (key.2.2 "question 1" (JsValue.str "answer 1") rfl).1,
    (key.2.2 "question 1" (JsValue.str "answer 1") rfl).2
      (by simp [elevenLog])⟩

/-- C3: eviction is first in, first out by pair. For a successful exchange with user
text `m` and reply `r`: if the window holds exactly 10 turns, the window afterwards is
the old one without its first two turns followed by the user turn and the assistant
turn; if it holds at most 8 turns nothing is evicted and the pair is appended. -/
theorem eviction_is_fifo_by_pair (entry : Entry) (c : AIChatManager) (m : String)
    (result : FetchResult) (r : JsValue)
    (hok : (getAIResponse_resume c m result).2 = Except.ok r) :
    (c.conversationHistory.length = 10 →
      (getAIResponse_resume c m result).1.conversationHistory =
        c.conversationHistory.drop 2 ++
          [⟨Role.user, JsValue.str m⟩, ⟨Role.assistant, r⟩] ∧
      (submitResume entry c m result).conversationHistory =
        c.conversationHistory.drop 2 ++
          [⟨Role.user, JsValue.str m⟩, ⟨Role.assistant, r⟩]) ∧
    (c.conversationHistory.length ≤ 8 →
      (getAIResponse_resume c m result).1.conversationHistory =
        c.conversationHistory ++ [⟨Role.user, JsValue.str m⟩, ⟨Role.assistant, r⟩] ∧
      (submitResume entry c m result).conversationHistory =
        c.conversationHistory ++ [⟨Role.user, JsValue.str m⟩, ⟨Role.assistant, r⟩]) := by
  have hw : (getAIResponse_resume c m result).1.conversationHistory =
      pushExchange c.conversationHistory m r := by
    rcases getAIResponse_resume_cases c m result with ⟨e, h⟩ | ⟨r1, h⟩
    · rw [h] at hok; simp at hok
    · rw [h] at hok
      simp only [Except.ok.injEq] at hok
      subst hok
      rw [h]
  rw [submitResume_history, hw]
  constructor
  · intro h10
    have : pushExchange c.conversationHistory m r =
        c.conversationHistory.drop 2 ++
          [⟨Role.user, JsValue.str m⟩, ⟨Role.assistant, r⟩] := by
      rw [pushExchange_eq]
      unfold sliceLast exchangeTurns
      have h2 : (2 : Nat) ≤ c.conversationHistory.length := by omega
      rw [← List.drop_append_of_le_length h2]
      simp [h10]
    exact ⟨this, this⟩
  · intro h8
    have : pushExchange c.conversationHistory m r =
        c.conversationHistory ++ [⟨Role.user, JsValue.str m⟩, ⟨Role.assistant, r⟩] := by
      rw [pushExchange_eq, sliceLast_of_le]
      · rfl
      · simp [exchangeTurns]; omega
    exact ⟨this, this⟩

theorem eviction_is_fifo_by_pair_witness :
    (getAIResponse_resume fullController "q6" okResult).2 = Except.ok (JsValue.str "a6") ∧
    fullController.conversationHistory.length = 10 ∧
    (submitResume Entry.sendMessage fullController "q6" okResult).conversationHistory =
      turnsOf [("q2", JsValue.str "a2"), ("q3", JsValue.str "a3"), ("q4", JsValue.str "a4"),
        ("q5", JsValue.str "a5"), ("q6", JsValue.str "a6")] ∧
    (submitResume Entry.sendMessage (AIChatManager.new "key") "q6" okResult).conversationHistory =
      [⟨Role.user, JsValue.str "q6"⟩, ⟨Role.assistant, JsValue.str "a6"⟩] :=
  ⟨rfl, rfl,
    ((eviction_is_fifo_by_pair Entry.sendMessage fullController "q6" okResult
      (JsValue.str "a6") rfl).1 rfl).2,
    ((eviction_is_fifo_by_pair Entry.sendMessage (AIChatManager.new "key") "q6" okResult
      (JsValue.str "a6") rfl).2 (by decide)).2⟩

/-- C4: a failed exchange never changes the history window. Whenever the request of a
submission settles as a failure (transport exception, status outside 200 to 299, body
that cannot be decoded, or decoded body without a first choice carrying a message),
`getAIResponse` throws and the window after the completed call is the window before it;
for an accepted submission this is the window the submission started from, so its length
does not grow and no half pair is inserted. -/
theorem failed_exchange_keeps_window (entry : Entry) (c : AIChatManager) (now : Int)
    (text : String) (result : FetchResult) (c1 : AIChatManager) (p : Pending)
    (hacc : submitStart entry c now text = (c1, some p))
    (hfail : result.isFailure = true) :
    (∃ e, (getAIResponse_resume c1 p.message result).2 = Except.error e) ∧
    c1.conversationHistory = c.conversationHistory ∧
    (getAIResponse_resume c1 p.message result).1.conversationHistory =
      c.conversationHistory ∧
    (submitResume p.entry c1 p.message result).conversationHistory =
      c.conversationHistory ∧
    (submitResume p.entry c1 p.message result).conversationHistory.length =
      c.conversationHistory.length := by
  have h1 : c1.conversationHistory = c.conversationHistory := by
    have := submitStart_history entry c now text
    rw [hacc] at this
    exact this
  obtain ⟨e, he⟩ := (isFailure_iff_error c1 p.message result).1 hfail
  have h2 : (getAIResponse_resume c1 p.message result).1.conversationHistory =
      c.conversationHistory := by rw [he]; exact h1
  have h3 : (submitResume p.entry c1 p.message result).conversationHistory =
      c.conversationHistory := by rw [submitResume_history]; exact h2
  exact ⟨⟨e, by rw [he]⟩, h1, h2, h3, by rw [h3]⟩

theorem failed_exchange_keeps_window_witness :
    (submitResume Entry.sendSuggestionMessage
      (acceptedState (AIChatManager.new "key") 5000 "Hello") "Hello"
      (FetchResult.resolved ⟨429, "Too Many Requests", BodyResult.failed "no body"⟩)
      ).conversationHistory = [] :=
  (failed_exchange_keeps_window Entry.sendSuggestionMessage (AIChatManager.new "key") 5000
    "Hello" (FetchResult.resolved ⟨429, "Too Many Requests", BodyResult.failed "no body"⟩)
    (acceptedState (AIChatManager.new "key") 5000 "Hello")
    ⟨Entry.sendSuggestionMessage, "Hello",
      getAIResponse_start (acceptedState (AIChatManager.new "key") 5000 "Hello") "Hello"⟩
    rfl rfl).2.2.2.1

/-- C5: for every controller state, time `now` and text whose trimmed form is not empty,
a submission through either entry point is accepted, that is, issues an outbound
request, if and only if `isProcessing` is false and `now - lastRequestTime ≥ 1000`. -/
theorem accepted_iff_guard (entry : Entry) (c : AIChatManager) (now : Int) (text : String)
    (htext : jsTrim text ≠ "") :
    ((submitStart entry c now text).2.isSome = true ↔
      (c.isProcessing = false ∧ now - c.lastRequestTime ≥ 1000)) ∧
    (∀ s : Session, s.chat = c →
      ((step s (Event.submit entry now text)).outbound ≠ s.outbound ↔
        (c.isProcessing = false ∧ now - c.lastRequestTime ≥ 1000))) := by
  have hi : ¬ Ignored entry text := fun h => htext h.2
  have key : (submitStart entry c now text).2.isSome = true ↔
      (c.isProcessing = false ∧ now - c.lastRequestTime ≥ 1000) := by
    rcases submitStart_cases entry c now text with
      ⟨h0, _⟩ | ⟨_, hlt, h⟩ | ⟨_, hge, hp, h⟩ | ⟨_, hge, hp, h⟩
    · exact absurd h0 hi
    · rw [h]
      simp only [Option.isSome_none, Bool.false_eq_true, false_iff, not_and]
      intro _; omega
    · rw [h]; simp [hp]
    · rw [h]
      simp only [Option.isSome_some, true_iff]
      exact ⟨hp, by omega⟩
  refine ⟨key, ?_⟩
  intro s hs
  rw [← key]
  subst hs
  simp only [step, Session.afterStart]
  cases h : (submitStart entry s.chat now text).2 with
  | none => simp
  | some p => simp

theorem accepted_iff_guard_witness :
    jsTrim " Hello " = "Hello" ∧
    ((submitStart Entry.sendMessage (AIChatManager.new "key") 5000 " Hello ").2.isSome = true ↔
      ((AIChatManager.new "key").isProcessing = false ∧
        (5000 : Int) - (AIChatManager.new "key").lastRequestTime ≥ 1000)) :=
  ⟨by decide,
    (accepted_iff_guard Entry.sendMessage (AIChatManager.new "key") 5000 " Hello "
      (by decide)).1⟩

theorem submitResume_isProcessing (entry : Entry) (c : AIChatManager) (message : String)
    (result : FetchResult) : (submitResume entry c message result).isProcessing = false := by
  rcases getAIResponse_resume_cases c message result with ⟨e, h⟩ | ⟨r, h⟩
  · rw [submitResume_error entry c message result e h]
  · rw [submitResume_ok entry c _ message result r h]

theorem submitResume_lastRequestTime (entry : Entry) (c : AIChatManager) (message : String)
    (result : FetchResult) :
    (submitResume entry c message result).lastRequestTime = c.lastRequestTime := by
  rcases getAIResponse_resume_cases c message result with ⟨e, h⟩ | ⟨r, h⟩
  · rw [submitResume_error entry c message result e h]
  · rw [submitResume_ok entry c _ message result r h]

/-- What an accepted call looks like. -/
theorem submitStart_some (entry : Entry) (c : AIChatManager) (now : Int) (text : String)
    (c1 : AIChatManager) (p : Pending) (h : submitStart entry c now text = (c1, some p)) :
    ¬ Ignored entry text ∧ ¬ now - c.lastRequestTime < 1000 ∧ c.isProcessing = false ∧
    c1 = acceptedState c now (messageOf entry text) ∧
    p = ⟨entry, messageOf entry text, getAIResponse_start c1 (messageOf entry text)⟩ := by
  rcases submitStart_cases entry c now text with
    ⟨_, hs⟩ | ⟨_, _, hs⟩ | ⟨_, _, _, hs⟩ | ⟨hi, hge, hp, hs⟩
  · rw [hs] at h; simp at h
  · rw [hs] at h; simp at h
  · rw [hs] at h; simp at h
  · rw [hs] at h
    simp only [Prod.mk.injEq, Option.some.injEq] at h
    obtain ⟨h1, h2⟩ := h
    subst h1
    exact ⟨hi, hge, hp, rfl, h2.symm⟩

/-- A call made while `isProcessing` is set returns early. -/
theorem submitStart_none_of_processing (entry : Entry) (c : AIChatManager) (now : Int)
    (text : String) (hp : c.isProcessing = true) :
    (submitStart entry c now text).2 = none ∧
    (submitStart entry c now text).1.isProcessing = true := by
  rcases submitStart_cases entry c now text with
    ⟨_, hs⟩ | ⟨_, _, hs⟩ | ⟨_, _, _, hs⟩ | ⟨_, _, hp0, _⟩
  · rw [hs]; exact ⟨rfl, hp⟩
  · rw [hs]; exact ⟨rfl, hp⟩
  · rw [hs]; exact ⟨rfl, hp⟩
  · rw [hp] at hp0; exact absurd hp0 (by decide)

theorem step_singleFlight (s : Session) (e : Event) (h : SingleFlight s) :
    SingleFlight (step s e) := by
  obtain ⟨hlen, hproc, hout⟩ := h
  cases e with
  | submit entry now text =>
    simp only [step, Session.afterStart]
    rcases submitStart_cases entry s.chat now text with
      ⟨_, hs⟩ | ⟨_, _, hs⟩ | ⟨_, _, _, hs⟩ | ⟨_, _, hp, hs⟩
    · rw [hs]; exact ⟨hlen, hproc, hout⟩
    · rw [hs]; exact ⟨hlen, hproc, hout⟩
    · rw [hs]; exact ⟨hlen, hproc, hout⟩
    · rw [hs]
      have hnil : s.pending = [] := by
        by_contra hne
        have := hproc.2 hne
        rw [hp] at this
        exact absurd this (by decide)
      refine ⟨?_, ?_, ?_⟩
      · simp [hnil]
      · simp [acceptedState]
      · simp [hout, hnil]
  | resolve index result =>
    simp only [step]
    cases hget : s.pending.get? index with
    | none => exact ⟨hlen, hproc, hout⟩
    | some p =>
      have hpend : s.pending = [p] ∧ index = 0 := by
        match hs : s.pending, hlen, hget with
        | [], _, hg => simp at hg
        | [q], _, hg =>
          cases index with
          | zero => simp at hg; exact ⟨by rw [hg], rfl⟩
          | succ k => simp at hg
        | _ :: _ :: _, hl, _ => simp at hl
      obtain ⟨hp1, hi0⟩ := hpend
      subst hi0
      refine ⟨?_, ?_, ?_⟩
      · simp [hp1]
      · simp [hp1, submitResume_isProcessing]
      · simp [hout, hp1]

theorem run_singleFlight (apiKey : String) (events : List Event) :
    SingleFlight (run apiKey events) := by
  unfold run
  apply foldl_step_invariant SingleFlight step_singleFlight
  simp [SingleFlight, Session.fresh, AIChatManager.new]

/-- C6: single flight. In every state reached from a fresh page by calls of the entry
points and completions of requests, at most one chat request is unsettled; a call made
while a request is unsettled issues no request and adds no suspended call; and the
requests whose results have been applied, followed by the unsettled one, are the issued
requests in the order they were accepted. -/
theorem single_flight (apiKey : String) (events : List Event) :
    (run apiKey events).pending.length ≤ 1 ∧
    (run apiKey events).outbound =
      (run apiKey events).applied ++ (run apiKey events).pending.map Pending.request ∧
    (∀ entry now text, 0 < (run apiKey events).pending.length →
      (step (run apiKey events) (Event.submit entry now text)).outbound =
        (run apiKey events).outbound ∧
      (step (run apiKey events) (Event.submit entry now text)).pending =
        (run apiKey events).pending) := by
  obtain ⟨hlen, hproc, hout⟩ := run_singleFlight apiKey events
  refine ⟨hlen, hout, ?_⟩
  intro entry now text hpos
  have hne : (run apiKey events).pending ≠ [] := by
    intro h0; rw [h0] at hpos; simp at hpos
  have hnone := (submitStart_none_of_processing entry (run apiKey events).chat now text
    (hproc.2 hne)).1
  simp only [step, Session.afterStart, hnone, and_self]

theorem single_flight_witness :
    (run "key" [Event.submit Entry.sendMessage 5000 "Hello"]).pending.length = 1 ∧
    (step (run "key" [Event.submit Entry.sendMessage 5000 "Hello"])
      (Event.submit Entry.sendSuggestionMessage 7000 "Pricing")).outbound =
      (run "key" [Event.submit Entry.sendMessage 5000 "Hello"]).outbound :=
  ⟨by decide,
    ((single_flight "key" [Event.submit Entry.sendMessage 5000 "Hello"]).2.2
      Entry.sendSuggestionMessage 7000 "Pricing" (by decide)).1⟩

/-- C7: cooldown rejection. A submission with non-empty text made at a time `now` with
`now - lastRequestTime < 1000` issues no request, adds to the visible transcript exactly
one assistant turn with the text `Please wait a moment before sending another message.`
and no user turn, and leaves the history window unchanged. Hence a second call made less
than 1000 ms after an accepted first call, whether the first request is still in flight
or has settled, issues no second request and adds exactly that one turn. -/
theorem cooldown_rejection (entry : Entry) (c : AIChatManager) (now : Int) (text : String)
    (htext : jsTrim text ≠ "") (hcool : now - c.lastRequestTime < 1000) :
    (submitStart entry c now text).2 = none ∧
    (submitStart entry c now text).1.chatMessages = c.chatMessages ++
      [⟨Role.assistant, JsValue.str "Please wait a moment before sending another message."⟩] ∧
    (submitStart entry c now text).1.conversationHistory = c.conversationHistory ∧
    (∀ s : Session, s.chat = c →
      (step s (Event.submit entry now text)).outbound = s.outbound ∧
      (step s (Event.submit entry now text)).pending = s.pending) ∧
    (∀ (entry0 : Entry) (c0 : AIChatManager) (now0 : Int) (text0 : String) (p : Pending),
      submitStart entry0 c0 now0 text0 = (c, some p) → now - now0 < 1000 →
      ∀ result : FetchResult,
        c.lastRequestTime = now0 ∧
        (submitStart entry (submitResume p.entry c p.message result) now text).2 = none ∧
        (submitStart entry (submitResume p.entry c p.message result) now text).1.chatMessages =
          (submitResume p.entry c p.message result).chatMessages ++
            [⟨Role.assistant,
              JsValue.str "Please wait a moment before sending another message."⟩]) := by
  have hi : ¬ Ignored entry text := fun h => htext h.2
  have hs := submitStart_cooldown entry c now text hi hcool
  refine ⟨by rw [hs], by rw [hs]; rfl, by rw [hs], ?_, ?_⟩
  · intro s hc
    subst hc
    simp only [step, Session.afterStart, hs, and_self]
  · intro entry0 c0 now0 text0 p hacc hlt result
    obtain ⟨_, _, _, hc1, _⟩ := submitStart_some entry0 c0 now0 text0 c p hacc
    have hlast : (submitResume p.entry c p.message result).lastRequestTime = now0 := by
      rw [submitResume_lastRequestTime, hc1]; rfl
    have hs2 := submitStart_cooldown entry (submitResume p.entry c p.message result) now text
      hi (by rw [hlast]; exact hlt)
    exact ⟨by rw [hc1]; rfl, by rw [hs2], by rw [hs2]; rfl⟩

theorem cooldown_rejection_witness :
    inFlightController.lastRequestTime = 5000 ∧
    (submitStart Entry.sendSuggestionMessage inFlightController 5999 "Pricing").2 = none ∧
    (submitStart Entry.sendSuggestionMessage inFlightController 5999 "Pricing").1.chatMessages =
      [⟨Role.user, JsValue.str "Hello"⟩,
        ⟨Role.assistant, JsValue.str "Please wait a moment before sending another message."⟩] :=
  ⟨rfl,
    (cooldown_rejection Entry.sendSuggestionMessage inFlightController 5999 "Pricing"
      (by decide) (by decide)).1,
    (cooldown_rejection Entry.sendSuggestionMessage inFlightController 5999 "Pricing"
      (by decide) (by decide)).2.1⟩

/-- C8, as stated, fails: a call made 500 ms after an accepted one, while its request is
still in flight, is answered with the cooldown text and not with the text
`I'm still processing your previous message. Please wait.`. -/
theorem busy_rejection_counterexample :
    inFlightController.isProcessing = true ∧
    (submitStart Entry.sendSuggestionMessage inFlightController 5500 "Pricing").1.chatMessages ≠
      inFlightController.chatMessages ++
        [⟨Role.assistant,
          JsValue.str "I'm still processing your previous message. Please wait."⟩] := by
  refine ⟨rfl, ?_⟩
  have h : (submitStart Entry.sendSuggestionMessage inFlightController 5500
      "Pricing").1.chatMessages =
      inFlightController.chatMessages ++
        [⟨Role.assistant,
          JsValue.str "Please wait a moment before sending another message."⟩] := rfl
  rw [h]
  simp

/-- C8, amended: a submission with non-empty text made while `isProcessing` is true
issues no request and leaves the history window unchanged; it adds exactly one assistant
turn to the transcript, which is the text `I'm still processing your previous message.
Please wait.` when `now - lastRequestTime ≥ 1000` and the cooldown text otherwise. -/
theorem busy_rejection (entry : Entry) (c : AIChatManager) (now : Int) (text : String)
    (htext : jsTrim text ≠ "") (hbusy : c.isProcessing = true) :
    (submitStart entry c now text).2 = none ∧
    (submitStart entry c now text).1.conversationHistory = c.conversationHistory ∧
    (∀ s : Session, s.chat = c →
      (step s (Event.submit entry now text)).outbound = s.outbound) ∧
    (now - c.lastRequestTime ≥ 1000 →
      (submitStart entry c now text).1.chatMessages = c.chatMessages ++
        [⟨Role.assistant,
          JsValue.str "I'm still processing your previous message. Please wait."⟩]) ∧
    (now - c.lastRequestTime < 1000 →
      (submitStart entry c now text).1.chatMessages = c.chatMessages ++
        [⟨Role.assistant,
          JsValue.str "Please wait a moment before sending another message."⟩]) := by
  have hi : ¬ Ignored entry text := fun h => htext h.2
  have hnone := (submitStart_none_of_processing entry c now text hbusy).1
  refine ⟨hnone, submitStart_history entry c now text, ?_, ?_, ?_⟩
  · intro s hc
    subst hc
    simp only [step, Session.afterStart, hnone]
  · intro hge
    rw [submitStart_busy entry c now text hi (by omega) hbusy]; rfl
  · intro hlt
    rw [submitStart_cooldown entry c now text hi hlt]; rfl

theorem busy_rejection_witness :
    inFlightController.isProcessing = true ∧
    (submitStart Entry.sendSuggestionMessage inFlightController 6000 "Pricing").1.chatMessages =
      [⟨Role.user, JsValue.str "Hello"⟩,
        ⟨Role.assistant,
          JsValue.str "I'm still processing your previous message. Please wait."⟩] :=
  ⟨rfl,
    (busy_rejection Entry.sendSuggestionMessage inFlightController 6000 "Pricing"
      (by decide) rfl).2.2.2.1 (by decide)⟩

/-- C9: guaranteed cleanup. Whatever the request of an accepted submission settles to,
`isProcessing` is false once the call has completed. A second call made while the first
request is unsettled returns without issuing a request, and once the first call has
completed `isProcessing` is false. In every reachable state with no unsettled request
`isProcessing` is false. -/
theorem guaranteed_cleanup (entry : Entry) (c : AIChatManager) (now : Int) (text : String)
    (c1 : AIChatManager) (p : Pending) (result : FetchResult)
    (hacc : submitStart entry c now text = (c1, some p)) :
    (submitResume p.entry c1 p.message result).isProcessing = false ∧
    (∀ (entry2 : Entry) (now2 : Int) (text2 : String),
      (submitStart entry2 c1 now2 text2).2 = none ∧
      (submitResume p.entry (submitStart entry2 c1 now2 text2).1 p.message
        result).isProcessing = false) ∧
    (∀ (apiKey : String) (events : List Event), (run apiKey events).pending = [] →
      (run apiKey events).chat.isProcessing = false) := by
  obtain ⟨_, _, _, hc1, _⟩ := submitStart_some entry c now text c1 p hacc
  have hp1 : c1.isProcessing = true := by rw [hc1]; rfl
  refine ⟨submitResume_isProcessing _ _ _ _, ?_, ?_⟩
  · intro entry2 now2 text2
    exact ⟨(submitStart_none_of_processing entry2 c1 now2 text2 hp1).1,
      submitResume_isProcessing _ _ _ _⟩
  · intro apiKey events hnil
    obtain ⟨_, hproc, _⟩ := run_singleFlight apiKey events
    cases hb : (run apiKey events).chat.isProcessing with
    | false => rfl
    | true => exact absurd hnil (hproc.1 hb)

theorem guaranteed_cleanup_witness :
    inFlightController.isProcessing = true ∧
    (submitResume Entry.sendMessage inFlightController "Hello"
      (FetchResult.rejected "Failed to fetch")).isProcessing = false ∧
    (submitResume Entry.sendMessage
      (submitStart Entry.sendSuggestionMessage inFlightController 5200 "Pricing").1 "Hello"
      (FetchResult.rejected "Failed to fetch")).isProcessing = false :=
  ⟨rfl,
    (guaranteed_cleanup Entry.sendMessage (AIChatManager.new "key") 5000 "Hello"
      inFlightController
      ⟨Entry.sendMessage, "Hello", getAIResponse_start inFlightController "Hello"⟩
      (FetchResult.rejected "Failed to fetch") rfl).1,
    ((guaranteed_cleanup Entry.sendMessage (AIChatManager.new "key") 5000 "Hello"
      inFlightController
      ⟨Entry.sendMessage, "Hello", getAIResponse_start inFlightController "Hello"⟩
      (FetchResult.rejected "Failed to fetch") rfl).2.1
        Entry.sendSuggestionMessage 5200 "Pricing").2⟩

theorem readContent_wellFormed (fields firstFields messageFields : List (String × JsValue))
    (others : List JsValue) (content : JsValue)
    (hchoices : JsValue.lookup "choices" fields =
      JsValue.arr (JsValue.obj firstFields :: others))
    (hmessage : JsValue.lookup "message" firstFields = JsValue.obj messageFields)
    (hcontent : JsValue.lookup "content" messageFields = content) :
    readContent (JsValue.obj fields) = Except.ok (some content) := by
  simp [readContent, JsValue.getField, JsValue.getIndex0, JsValue.truthy, hchoices, hmessage,
    hcontent, bind, Except.bind, pure, Except.pure, Functor.map, Except.map]

/-- C10: success. For an accepted submission with local message `m` whose request
settles with a 2xx response whose body is an object with a `choices` array, whose first
choice is an object with a `message` object whose `content` is the string `r`:
`getAIResponse` returns `r`, the visible transcript gains exactly the turns user `m`,
assistant `r`, the window becomes the last 10 turns of the old window followed by that
pair (so it ends with the pair), and health is `connected`. The remaining choices are
arbitrary: only the first is read. -/
theorem success_exchange (entry : Entry) (c : AIChatManager) (now : Int) (text : String)
    (c1 : AIChatManager) (p : Pending) (status : Nat) (statusText : String)
    (fields firstFields messageFields : List (String × JsValue)) (others : List JsValue)
    (r : String)
    (hacc : submitStart entry c now text = (c1, some p))
    (hstatus : 200 ≤ status ∧ status ≤ 299)
    (hchoices : JsValue.lookup "choices" fields =
      JsValue.arr (JsValue.obj firstFields :: others))
    (hmessage : JsValue.lookup "message" firstFields = JsValue.obj messageFields)
    (hcontent : JsValue.lookup "content" messageFields = JsValue.str r) :
    p.message = messageOf entry text ∧
    (getAIResponse_resume c1 p.message (FetchResult.resolved
      ⟨status, statusText, BodyResult.parsed (JsValue.obj fields)⟩)).2 =
        Except.ok (JsValue.str r) ∧
    (submitResume p.entry c1 p.message (FetchResult.resolved
      ⟨status, statusText, BodyResult.parsed (JsValue.obj fields)⟩)).chatMessages =
        c.chatMessages ++
          [⟨Role.user, JsValue.str p.message⟩, ⟨Role.assistant, JsValue.str r⟩] ∧
    (submitResume p.entry c1 p.message (FetchResult.resolved
      ⟨status, statusText, BodyResult.parsed (JsValue.obj fields)⟩)).conversationHistory =
        sliceLast 10 (c.conversationHistory ++
          [⟨Role.user, JsValue.str p.message⟩, ⟨Role.assistant, JsValue.str r⟩]) ∧
    (∃ older, (submitResume p.entry c1 p.message (FetchResult.resolved
      ⟨status, statusText, BodyResult.parsed (JsValue.obj fields)⟩)).conversationHistory =
        older ++ [⟨Role.user, JsValue.str p.message⟩, ⟨Role.assistant, JsValue.str r⟩]) ∧
    (submitResume p.entry c1 p.message (FetchResult.resolved
      ⟨status, statusText, BodyResult.parsed (JsValue.obj fields)⟩)).connectionStatus =
        ConnectionStatus.connected := by
  obtain ⟨_, _, _, hc1, hp⟩ := submitStart_some entry c now text c1 p hacc
  have hm : p.message = messageOf entry text := by rw [hp]
  have hread := readContent_wellFormed fields firstFields messageFields others
    (JsValue.str r) hchoices hmessage hcontent
  have hok : (⟨status, statusText, BodyResult.parsed (JsValue.obj fields)⟩ : Response).ok
      = true := by
    simp [Response.ok, hstatus.1, hstatus.2]
  have hres : getAIResponse_resume c1 p.message (FetchResult.resolved
      ⟨status, statusText, BodyResult.parsed (JsValue.obj fields)⟩) =
      ({ c1 with conversationHistory :=
          pushExchange c1.conversationHistory p.message (JsValue.str r) },
        Except.ok (JsValue.str r)) := by
    simp [getAIResponse_resume, hok, hread, pushExchange, exchangeTurns]
  have hhist : c1.conversationHistory = c.conversationHistory := by rw [hc1]; rfl
  have hwin : (submitResume p.entry c1 p.message (FetchResult.resolved
      ⟨status, statusText, BodyResult.parsed (JsValue.obj fields)⟩)).conversationHistory =
        sliceLast 10 (c.conversationHistory ++
          [⟨Role.user, JsValue.str p.message⟩, ⟨Role.assistant, JsValue.str r⟩]) := by
    rw [submitResume_history, hres]
    simp only
    rw [pushExchange_eq, hhist]
    rfl
  refine ⟨hm, by rw [hres], ?_, hwin, ?_, ?_⟩
  · rw [submitResume_ok _ _ _ _ _ _ hres]
    simp only
    rw [hc1, hm]
    simp [acceptedState]
  · rw [hwin]
    unfold sliceLast
    refine ⟨c.conversationHistory.drop (c.conversationHistory.length + 2 - 10), ?_⟩
    have hle : c.conversationHistory.length + 2 - 10 ≤ c.conversationHistory.length := by
      omega
    rw [← List.drop_append_of_le_length hle]
    simp
  · rw [submitResume_ok _ _ _ _ _ _ hres]

theorem success_exchange_witness :
    (submitResume Entry.sendMessage inFlightController "Hello"
      (FetchResult.resolved (successResponse (JsValue.str "Hi there")))).chatMessages =
        [⟨Role.user, JsValue.str "Hello"⟩, ⟨Role.assistant, JsValue.str "Hi there"⟩] ∧
    (submitResume Entry.sendMessage inFlightController "Hello"
      (FetchResult.resolved (successResponse (JsValue.str "Hi there")))).conversationHistory =
        [⟨Role.user, JsValue.str "Hello"⟩, ⟨Role.assistant, JsValue.str "Hi there"⟩] ∧
    (submitResume Entry.sendMessage inFlightController "Hello"
      (FetchResult.resolved (successResponse (JsValue.str "Hi there")))).connectionStatus =
        ConnectionStatus.connected :=
  have key := success_exchange Entry.sendMessage (AIChatManager.new "key") 5000 "Hello"
    inFlightController
    ⟨Entry.sendMessage, "Hello", getAIResponse_start inFlightController "Hello"⟩
    200 "OK"
    [("choices", JsValue.arr
      [JsValue.obj [("message", JsValue.obj [("content", JsValue.str "Hi there")])]])]
    [("message", JsValue.obj [("content", JsValue.str "Hi there")])]
    [("content", JsValue.str "Hi there")] [] "Hi there" rfl (by decide) rfl rfl rfl
  ⟨key.2.2.1, key.2.2.2.1, key.2.2.2.2.2⟩

/-! ## Substring search and the error message of a failed status -/

theorem includesChars_iff_infix (hay needle : List Char) :
    includesChars hay needle = true ↔ needle <:+: hay := by
  induction hay with
  | nil =>
    cases needle with
    | nil => simp [includesChars]
    | cons a l => simp [includesChars, List.isPrefixOf]
  | cons c cs ih =>
    rw [includesChars, Bool.or_eq_true, ih, List.infix_cons_iff, List.isPrefixOf_iff_prefix]

theorem prefix_of_sep_not_mem (sep : Char) (needle u b : List Char) (hsep : sep ∉ needle)
    (h : needle <+: u ++ sep :: b) : needle <+: u := by
  have h2 : u ++ [sep] <+: u ++ sep :: b := ⟨b, by simp⟩
  rcases List.prefix_or_prefix_of_prefix h h2 with h3 | h3
  · rcases List.prefix_concat_iff.1 h3 with h4 | h4
    · exact absurd (by rw [h4]; simp) hsep
    · exact h4
  · exact absurd (h3.subset (by simp)) hsep

/-- A needle without the separator occurs in `a ++ sep :: b` only inside `a` or inside `b`. -/
theorem infix_sep_iff (sep : Char) (needle a b : List Char) (hsep : sep ∉ needle) :
    needle <:+: a ++ sep :: b ↔ needle <:+: a ∨ needle <:+: b := by
  constructor
  · intro h
    induction a with
    | nil =>
      rcases List.infix_cons_iff.1 h with h1 | h1
      · exact Or.inl (prefix_of_sep_not_mem sep needle [] b hsep h1).isInfix
      · exact Or.inr h1
    | cons x a ih =>
      rcases List.infix_cons_iff.1 h with h1 | h1
      · exact Or.inl (prefix_of_sep_not_mem sep needle (x :: a) b hsep h1).isInfix
      · rcases ih h1 with h2 | h2
        · exact Or.inl (List.infix_cons h2)
        · exact Or.inr h2
  · rintro (h | h)
    · exact h.trans (List.infix_append' [] a (sep :: b))
    · exact h.trans ⟨a ++ [sep], [], by simp⟩

theorem includesChars_sep (sep : Char) (needle a b : List Char) (hsep : sep ∉ needle) :
    includesChars (a ++ sep :: b) needle = (includesChars a needle || includesChars b needle) := by
  rw [Bool.eq_iff_iff, Bool.or_eq_true, includesChars_iff_infix, includesChars_iff_infix,
    includesChars_iff_infix]
  exact infix_sep_iff sep needle a b hsep

/-- In the message of a failed status a needle without blanks that does not occur in the
fixed words occurs only inside the status number or inside the status text. -/
theorem jsIncludes_statusErrorMessage (status : Nat) (statusText needle : String)
    (hsep : ' ' ∉ needle.data)
    (hfixed : includesChars "API request failed:".data needle.data = false) :
    jsIncludes (statusErrorMessage status statusText) needle =
      (jsIncludes (toString status) needle || jsIncludes statusText needle) := by
  unfold jsIncludes statusErrorMessage
  have hdata : ("API request failed: " ++ toString status ++ " " ++ statusText).data =
      "API request failed:".data ++ ' ' :: ((toString status).data ++ ' ' :: statusText.data) := by
    simp [String.data_append]
  rw [hdata, includesChars_sep ' ' _ _ _ hsep, includesChars_sep ' ' _ _ _ hsep, hfixed]
  simp

set_option maxRecDepth 1000000 in
theorem status_digits_below_thousand :
    ∀ s, s < 1000 →
      (jsIncludes (toString s) "401" = true ↔ s = 401) ∧
      (jsIncludes (toString s) "429" = true ↔ s = 429) ∧
      (jsIncludes (toString s) "500" = true ↔ s = 500) := by
  decide

/-! ## What the second half does with the reply -/

theorem getAIResponse_resume_snd (c : AIChatManager) (message : String)
    (result : FetchResult) : (getAIResponse_resume c message result).2 = replyOf result := by
  unfold getAIResponse_resume replyOf
  cases result with
  | rejected msg => rfl
  | resolved response =>
    simp only
    split
    · rfl
    · cases response.body with
      | failed msg => rfl
      | parsed data =>
        simp only
        cases readContent data with
        | error e => rfl
        | ok o =>
          cases o with
          | none => rfl
          | some r => rfl

theorem getAIResponse_resume_of_error (c : AIChatManager) (message : String)
    (result : FetchResult) (e : JsError) (h : replyOf result = Except.error e) :
    getAIResponse_resume c message result = (c, Except.error e) := by
  rcases getAIResponse_resume_cases c message result with ⟨e1, h1⟩ | ⟨r, h1⟩
  · have h2 := getAIResponse_resume_snd c message result
    rw [h1, h] at h2
    simp only [Except.error.injEq] at h2
    rw [h1, h2]
  · have h2 := getAIResponse_resume_snd c message result
    rw [h1, h] at h2
    simp at h2

theorem getAIResponse_resume_of_ok (c : AIChatManager) (message : String)
    (result : FetchResult) (r : JsValue) (h : replyOf result = Except.ok r) :
    getAIResponse_resume c message result =
      ({ c with conversationHistory := pushExchange c.conversationHistory message r },
        Except.ok r) := by
  rcases getAIResponse_resume_cases c message result with ⟨e1, h1⟩ | ⟨r1, h1⟩
  · have h2 := getAIResponse_resume_snd c message result
    rw [h1, h] at h2
    simp at h2
  · have h2 := getAIResponse_resume_snd c message result
    rw [h1, h] at h2
    simp only [Except.ok.injEq] at h2
    rw [h1, h2]

/-- The completed call after a failure: `error` health, one assistant turn with the text
chosen from the error message, `isProcessing` cleared, nothing else changed. -/
theorem submitResume_of_error (entry : Entry) (c : AIChatManager) (message : String)
    (result : FetchResult) (e : JsError) (h : replyOf result = Except.error e) :
    submitResume entry c message result =
      { c with connectionStatus := ConnectionStatus.error,
               chatMessages := c.chatMessages ++
                 [⟨Role.assistant, JsValue.str (errorText entry e.message)⟩],
               isProcessing := false } :=
  submitResume_error entry c message result e
    (getAIResponse_resume_of_error c message result e h)

theorem replyOf_status (status : Nat) (statusText : String) (body : BodyResult)
    (h : ¬ (200 ≤ status ∧ status ≤ 299)) :
    replyOf (FetchResult.resolved ⟨status, statusText, body⟩) =
      Except.error ⟨statusErrorMessage status statusText⟩ := by
  have hok : (⟨status, statusText, body⟩ : Response).ok = false := by
    simp only [Response.ok, Bool.and_eq_false_imp, decide_eq_true_eq, decide_eq_false_iff_not]
    intro h1 h2
    exact h ⟨h1, h2⟩
  simp [replyOf, hok, statusErrorMessage]

theorem replyOf_lacksMessage (status : Nat) (statusText : String) (data : JsValue)
    (hstatus : 200 ≤ status ∧ status ≤ 299) (hlack : LacksMessage data) :
    replyOf (FetchResult.resolved ⟨status, statusText, BodyResult.parsed data⟩) =
      Except.error ⟨"Invalid response format from AI API"⟩ := by
  have hok : (⟨status, statusText, BodyResult.parsed data⟩ : Response).ok = true := by
    simp [Response.ok, hstatus.1, hstatus.2]
  have hread : readContent data = Except.ok none := by
    obtain ⟨choices, hc, h1⟩ := hlack
    rcases h1 with h1 | ⟨first, hf, h2⟩
    · simp [readContent, hc, h1, bind, Except.bind, pure, Except.pure]
    · by_cases hct : choices.truthy = false
      · simp [readContent, hc, hct, bind, Except.bind, pure, Except.pure]
      · rcases h2 with h2 | ⟨message, hm, h3⟩
        · simp [readContent, hc, hct, hf, h2, bind, Except.bind, pure, Except.pure]
        · by_cases hft : first.truthy = false
          · simp [readContent, hc, hct, hf, hft, bind, Except.bind, pure, Except.pure]
          · simp [readContent, hc, hct, hf, hft, hm, h3, bind, Except.bind, pure, Except.pure]
  simp [replyOf, hok, hread]

theorem mem_pushExchange (w : List Turn) (message : String) (reply : JsValue) (t : Turn)
    (h : t ∈ pushExchange w message reply) :
    t ∈ w ∨ t = ⟨Role.user, JsValue.str message⟩ ∨ t = ⟨Role.assistant, reply⟩ := by
  rw [pushExchange_eq] at h
  unfold sliceLast at h
  have h1 := List.mem_of_mem_drop h
  simpa [exchangeTurns] using h1

theorem step_windowRoles (s : Session) (e : Event) (h : WindowRoles s) :
    WindowRoles (step s e) := by
  cases e with
  | submit entry now text =>
    have hh := submitStart_history entry s.chat now text
    unfold WindowRoles
    simp only [step, Session.afterStart]
    split <;> (simp only; rw [hh]; exact h)
  | resolve index result =>
    unfold WindowRoles
    simp only [step]
    split
    · exact h
    · rename_i p _
      simp only
      rw [submitResume_history]
      rcases getAIResponse_resume_cases s.chat p.message result with ⟨e, h1⟩ | ⟨r, h1⟩
      · rw [h1]; exact h
      · rw [h1]
        intro t ht
        rcases mem_pushExchange _ _ _ t ht with h2 | h2 | h2
        · exact h t h2
        · exact Or.inl (by rw [h2])
        · exact Or.inr (by rw [h2])

theorem run_windowRoles (apiKey : String) (events : List Event) :
    WindowRoles (run apiKey events) := by
  unfold run
  apply foldl_step_invariant WindowRoles step_windowRoles
  intro t ht
  simp [Session.fresh, AIChatManager.new] at ht

/-! ## The claims, continued -/

/-- C11, as stated, fails: a 200 response whose first choice has a message without
`content`, or with the empty string as `content`, is taken as a success; `getAIResponse`
returns `undefined` (or the empty string) and the pair is pushed onto the window. -/
theorem missing_content_counterexample :
    (getAIResponse_resume inFlightController "Hello" noContentResult).2 =
      Except.ok JsValue.undefined ∧
    (submitResume Entry.sendMessage inFlightController "Hello"
      noContentResult).conversationHistory ≠ inFlightController.conversationHistory ∧
    (getAIResponse_resume inFlightController "Hello"
      (FetchResult.resolved (successResponse (JsValue.str "")))).2 =
        Except.ok (JsValue.str "") ∧
    (submitResume Entry.sendMessage inFlightController "Hello"
      (FetchResult.resolved (successResponse (JsValue.str "")))).conversationHistory ≠
        inFlightController.conversationHistory := by
  have h0 : inFlightController.conversationHistory = [] := rfl
  have h1 : (submitResume Entry.sendMessage inFlightController "Hello"
      noContentResult).conversationHistory =
      [⟨Role.user, JsValue.str "Hello"⟩, ⟨Role.assistant, JsValue.undefined⟩] := rfl
  have h2 : (submitResume Entry.sendMessage inFlightController "Hello"
      (FetchResult.resolved (successResponse (JsValue.str "")))).conversationHistory =
      [⟨Role.user, JsValue.str "Hello"⟩, ⟨Role.assistant, JsValue.str ""⟩] := rfl
  refine ⟨rfl, ?_, rfl, ?_⟩
  · rw [h1, h0]; simp
  · rw [h2, h0]; simp

/-- C11, amended: for an accepted submission whose request settles with a 2xx response
whose decoded body lacks `choices`, a first choice or a `message`, `getAIResponse` throws
the error `Invalid response format from AI API` and the history window stays the one the
submission started from. -/
theorem malformed_payload_fails (entry : Entry) (c : AIChatManager) (now : Int)
    (text : String) (c1 : AIChatManager) (p : Pending) (status : Nat) (statusText : String)
    (data : JsValue)
    (hacc : submitStart entry c now text = (c1, some p))
    (hstatus : 200 ≤ status ∧ status ≤ 299) (hlack : LacksMessage data) :
    getAIResponse_resume c1 p.message
      (FetchResult.resolved ⟨status, statusText, BodyResult.parsed data⟩) =
        (c1, Except.error ⟨"Invalid response format from AI API"⟩) ∧
    (submitResume p.entry c1 p.message
      (FetchResult.resolved ⟨status, statusText, BodyResult.parsed data⟩)).conversationHistory =
        c.conversationHistory := by
  have hr := replyOf_lacksMessage status statusText data hstatus hlack
  have hg := getAIResponse_resume_of_error c1 p.message _ _ hr
  refine ⟨hg, ?_⟩
  rw [submitResume_history, hg]
  have := submitStart_history entry c now text
  rw [hacc] at this
  exact this

theorem malformed_payload_fails_witness :
    (submitResume Entry.sendMessage inFlightController "Hello"
      (FetchResult.resolved ⟨200, "OK", BodyResult.parsed (JsValue.obj
        [("choices", JsValue.arr [])])⟩)).conversationHistory = [] :=
  (malformed_payload_fails Entry.sendMessage (AIChatManager.new "key") 5000 "Hello"
    inFlightController
    ⟨Entry.sendMessage, "Hello", getAIResponse_start inFlightController "Hello"⟩
    200 "OK" (JsValue.obj [("choices", JsValue.arr [])]) rfl (by decide)
    ⟨JsValue.arr [], rfl, Or.inr ⟨JsValue.undefined, rfl, Or.inl rfl⟩⟩).2

/-- C12: outbound payload. For an accepted submission made in a reachable state with
window `w` and local message `m`, the `messages` array sent is the system turn with the
fixed prompt, then `w` in order, then the user turn `m`: the first element is the system
turn, whose text is the product-context prompt written out below, no later element has
role system, the last element is the new user turn, and the length is `|w| + 2 ≤ 12`. The body carries the model `openai/gpt-oss-20b`, `max_tokens`
500, `temperature` 0.7 and `stream` false, and this request is the one issued. -/
theorem outbound_payload (apiKey : String) (events : List Event) (entry : Entry) (now : Int)
    (text : String) (c1 : AIChatManager) (p : Pending)
    (hacc : submitStart entry (run apiKey events).chat now text = (c1, some p)) :
    p.message = messageOf entry text ∧
    p.request.body.messages =
      [⟨Role.system, JsValue.str systemPrompt⟩] ++
        (run apiKey events).chat.conversationHistory ++
        [⟨Role.user, JsValue.str p.message⟩] ∧
    p.request.body.messages.head? = some ⟨Role.system, JsValue.str
      "You are an AI assistant for Codediera EduPro, a comprehensive school management system. You help potential customers understand our features, pricing, and capabilities. \n\nKey Information:\n- We offer school management software with features like student management, academic records, attendance tracking, grade management, parent portal, staff management, financial management, library system, communication hub, examination system, and advanced analytics.\n- Pricing: Starter (₦500,000) for up to 200 students, Professional (₦1,200,000) for up to 1,000 students, Enterprise (₦2,500,000) for unlimited students. Scratch card options available with 90% discounts.\n- Security: Enterprise-grade encryption, SSL certificates, multi-factor authentication, hosted on AWS (US) and Microsoft Azure (UK) with 99.9% uptime.\n- Contact: +2349150524245, info@codediera.com, WhatsApp available for inquiries.\n- Location: Owerri, Nigeria\n\nBe helpful, professional, and concise. If asked about something not related to our school management system, politely redirect the conversation back to our services."⟩ ∧
    p.request.body.messages.getLast? = some ⟨Role.user, JsValue.str p.message⟩ ∧
    (∀ t ∈ p.request.body.messages.tail, t.role ≠ Role.system) ∧
    p.request.body.messages.length =
      (run apiKey events).chat.conversationHistory.length + 2 ∧
    p.request.body.messages.length ≤ 12 ∧
    p.request.body.model = "openai/gpt-oss-20b" ∧
    p.request.body.max_tokens = 500 ∧
    p.request.body.temperature = 7 / 10 ∧
    p.request.body.stream = false ∧
    (step (run apiKey events) (Event.submit entry now text)).outbound =
      (run apiKey events).outbound ++ [p.request] := by
  obtain ⟨_, _, _, hc1, hp⟩ := submitStart_some entry _ now text c1 p hacc
  have hm : p.message = messageOf entry text := by rw [hp]
  have hw : c1.conversationHistory = (run apiKey events).chat.conversationHistory := by
    rw [hc1]; rfl
  have hmsgs : p.request.body.messages =
      [⟨Role.system, JsValue.str systemPrompt⟩] ++
        (run apiKey events).chat.conversationHistory ++
        [⟨Role.user, JsValue.str p.message⟩] := by
    rw [hp]
    simp only [getAIResponse_start, hw]
  have hlen := window_at_most_ten_aux apiKey events
  have hroles := run_windowRoles apiKey events
  refine ⟨hm, hmsgs, ?_, ?_, ?_, ?_, ?_, ?_, ?_, ?_, ?_, ?_⟩
  · rw [hmsgs]; rfl
  · rw [hmsgs]; exact List.getLast?_concat _
  · rw [hmsgs]
    intro t ht
    have ht2 : t ∈ (run apiKey events).chat.conversationHistory ++
        [⟨Role.user, JsValue.str p.message⟩] := by simpa using ht
    rcases List.mem_append.1 ht2 with h1 | h1
    · rcases hroles t h1 with h | h <;> simp [h]
    · simp only [List.mem_singleton] at h1
      simp [h1]
  · rw [hmsgs]; simp
  · rw [hmsgs]; simp; omega
  · rw [hp]; rfl
  · rw [hp]; rfl
  · rw [hp]; rfl
  · rw [hp]; rfl
  · simp only [step, Session.afterStart, hacc]

theorem outbound_payload_witness :
    (run "key" oneExchangeEvents).chat.conversationHistory =
      [⟨Role.user, JsValue.str "Hello"⟩, ⟨Role.assistant, JsValue.str "Hi there"⟩] ∧
    (getAIResponse_start (acceptedState (run "key" oneExchangeEvents).chat 7000 "Pricing")
      "Pricing").body.messages =
        [⟨Role.system, JsValue.str
          "You are an AI assistant for Codediera EduPro, a comprehensive school management system. You help potential customers understand our features, pricing, and capabilities. \n\nKey Information:\n- We offer school management software with features like student management, academic records, attendance tracking, grade management, parent portal, staff management, financial management, library system, communication hub, examination system, and advanced analytics.\n- Pricing: Starter (₦500,000) for up to 200 students, Professional (₦1,200,000) for up to 1,000 students, Enterprise (₦2,500,000) for unlimited students. Scratch card options available with 90% discounts.\n- Security: Enterprise-grade encryption, SSL certificates, multi-factor authentication, hosted on AWS (US) and Microsoft Azure (UK) with 99.9% uptime.\n- Contact: +2349150524245, info@codediera.com, WhatsApp available for inquiries.\n- Location: Owerri, Nigeria\n\nBe helpful, professional, and concise. If asked about something not related to our school management system, politely redirect the conversation back to our services."⟩,
          ⟨Role.user, JsValue.str "Hello"⟩, ⟨Role.assistant, JsValue.str "Hi there"⟩,
          ⟨Role.user, JsValue.str "Pricing"⟩] ∧
    (getAIResponse_start (acceptedState (run "key" oneExchangeEvents).chat 7000 "Pricing")
      "Pricing").body.max_tokens = 500 ∧
    (getAIResponse_start inFlightController "Hello").body.messages =
      [⟨Role.system, JsValue.str systemPrompt⟩, ⟨Role.user, JsValue.str "Hello"⟩] :=
  have key := outbound_payload "key" oneExchangeEvents Entry.sendSuggestionMessage 7000
    "Pricing" (acceptedState (run "key" oneExchangeEvents).chat 7000 "Pricing")
    ⟨Entry.sendSuggestionMessage, "Pricing",
      getAIResponse_start (acceptedState (run "key" oneExchangeEvents).chat 7000 "Pricing")
        "Pricing"⟩ rfl
  ⟨rfl, key.2.1.trans rfl, key.2.2.2.2.2.2.2.2.1, rfl⟩

theorem errorText_eq (entry : Entry) (message : String) :
    errorText entry message =
      if jsIncludes message "401" = true then authenticationText
      else if jsIncludes message "429" = true then rateLimitText
      else if jsIncludes message "500" = true then serverErrorText
      else genericErrorMessage entry := by
  cases entry <;> rfl

/-- The text shown for a failed status below 1000, in terms of the status and of the
needles found in the status text. -/
theorem errorText_status (entry : Entry) (status : Nat) (statusText : String)
    (hs : status < 1000) :
    errorText entry (statusErrorMessage status statusText) =
      if status = 401 ∨ jsIncludes statusText "401" = true then authenticationText
      else if status = 429 ∨ jsIncludes statusText "429" = true then rateLimitText
      else if status = 500 ∨ jsIncludes statusText "500" = true then serverErrorText
      else genericErrorMessage entry := by
  obtain ⟨d1, d2, d3⟩ := status_digits_below_thousand status hs
  rw [errorText_eq,
    jsIncludes_statusErrorMessage status statusText "401" (by decide) (by decide),
    jsIncludes_statusErrorMessage status statusText "429" (by decide) (by decide),
    jsIncludes_statusErrorMessage status statusText "500" (by decide) (by decide)]
  simp only [Bool.or_eq_true, d1, d2, d3]

theorem errorText_of_clean (entry : Entry) (message : String)
    (h401 : jsIncludes message "401" = false) (h429 : jsIncludes message "429" = false)
    (h500 : jsIncludes message "500" = false) :
    errorText entry message = genericErrorMessage entry := by
  rw [errorText_eq]
  simp [h401, h429, h500]

theorem genericErrorMessage_ne (entry : Entry) :
    genericErrorMessage entry ≠ authenticationText ∧
    genericErrorMessage entry ≠ rateLimitText ∧
    genericErrorMessage entry ≠ serverErrorText := by
  cases entry <;> decide

/-- An accepted submission whose request fails: the transcript gains the user turn and one
assistant turn with the text chosen from the error message, and health is `error`. -/
theorem accepted_failure (entry : Entry) (c : AIChatManager) (now : Int) (text : String)
    (c1 : AIChatManager) (p : Pending) (result : FetchResult) (e : JsError)
    (hacc : submitStart entry c now text = (c1, some p))
    (h : replyOf result = Except.error e) :
    (submitResume p.entry c1 p.message result).chatMessages =
      c.chatMessages ++ [⟨Role.user, JsValue.str (messageOf entry text)⟩,
        ⟨Role.assistant, JsValue.str (errorText entry e.message)⟩] ∧
    (submitResume p.entry c1 p.message result).connectionStatus = ConnectionStatus.error := by
  obtain ⟨_, _, _, hc1, hp⟩ := submitStart_some entry c now text c1 p hacc
  rw [submitResume_of_error p.entry c1 p.message result e h]
  subst hp
  subst hc1
  simp [acceptedState]

/-- C13, as stated, fails: a 429 response whose status text contains `401` is shown as
the authentication text, not as the rate-limit text. -/
theorem named_status_counterexample :
    (submitResume Entry.sendMessage inFlightController "Hello"
      (FetchResult.resolved ⟨429, "Quota 401 exceeded", BodyResult.parsed JsValue.null⟩)
      ).chatMessages ≠
        inFlightController.chatMessages ++
          [⟨Role.assistant,
            JsValue.str "Too many requests. Please wait a moment before trying again."⟩] := by
  have h0 : inFlightController.chatMessages = [⟨Role.user, JsValue.str "Hello"⟩] := rfl
  have h1 : (submitResume Entry.sendMessage inFlightController "Hello"
      (FetchResult.resolved ⟨429, "Quota 401 exceeded", BodyResult.parsed JsValue.null⟩)
      ).chatMessages =
      [⟨Role.user, JsValue.str "Hello"⟩,
        ⟨Role.assistant, JsValue.str "Authentication error. Please contact support."⟩] := rfl
  rw [h0, h1]
  simp

/-- C13, amended: for an accepted submission whose response has status 401 the assistant
turn is `Authentication error. Please contact support.` for every status text; with
status 429 it is `Too many requests. Please wait a moment before trying again.` when the
status text does not contain `401`; with status 500 it is `Server error. Please try again
in a few moments.` when the status text contains neither `401` nor `429`. -/
theorem named_status_classification (entry : Entry) (c : AIChatManager) (now : Int)
    (text : String) (c1 : AIChatManager) (p : Pending) (statusText : String)
    (body : BodyResult) (hacc : submitStart entry c now text = (c1, some p)) :
    (submitResume p.entry c1 p.message
      (FetchResult.resolved ⟨401, statusText, body⟩)).chatMessages =
        c.chatMessages ++ [⟨Role.user, JsValue.str (messageOf entry text)⟩,
          ⟨Role.assistant, JsValue.str "Authentication error. Please contact support."⟩] ∧
    (jsIncludes statusText "401" = false →
      (submitResume p.entry c1 p.message
        (FetchResult.resolved ⟨429, statusText, body⟩)).chatMessages =
          c.chatMessages ++ [⟨Role.user, JsValue.str (messageOf entry text)⟩,
            ⟨Role.assistant,
              JsValue.str "Too many requests. Please wait a moment before trying again."⟩]) ∧
    (jsIncludes statusText "401" = false → jsIncludes statusText "429" = false →
      (submitResume p.entry c1 p.message
        (FetchResult.resolved ⟨500, statusText, body⟩)).chatMessages =
          c.chatMessages ++ [⟨Role.user, JsValue.str (messageOf entry text)⟩,
            ⟨Role.assistant,
              JsValue.str "Server error. Please try again in a few moments."⟩]) := by
  refine ⟨?_, ?_, ?_⟩
  · rw [(accepted_failure entry c now text c1 p _ _ hacc
      (replyOf_status 401 statusText body (by omega))).1,
      errorText_status entry 401 statusText (by omega)]
    simp [authenticationText]
  · intro h401
    rw [(accepted_failure entry c now text c1 p _ _ hacc
      (replyOf_status 429 statusText body (by omega))).1,
      errorText_status entry 429 statusText (by omega)]
    simp [h401, rateLimitText]
  · intro h401 h429
    rw [(accepted_failure entry c now text c1 p _ _ hacc
      (replyOf_status 500 statusText body (by omega))).1,
      errorText_status entry 500 statusText (by omega)]
    simp [h401, h429, serverErrorText]

theorem named_status_classification_witness :
    (submitResume Entry.sendMessage inFlightController "Hello"
      (FetchResult.resolved ⟨429, "Too Many Requests", BodyResult.parsed JsValue.null⟩)
      ).chatMessages =
        [⟨Role.user, JsValue.str "Hello"⟩,
          ⟨Role.assistant,
            JsValue.str "Too many requests. Please wait a moment before trying again."⟩] :=
  (named_status_classification Entry.sendMessage (AIChatManager.new "key") 5000 "Hello"
    inFlightController
    ⟨Entry.sendMessage, "Hello", getAIResponse_start inFlightController "Hello"⟩
    "Too Many Requests" (BodyResult.parsed JsValue.null) rfl).2.1 (by decide)

/-- C14, as stated, fails: a 503 response with the status text `Service Unavailable` is
shown as the generic connectivity text, not as the server-error text. -/
theorem server_range_counterexample :
    (submitResume Entry.sendMessage inFlightController "Hello"
      (FetchResult.resolved ⟨503, "Service Unavailable", BodyResult.parsed JsValue.null⟩)
      ).chatMessages ≠
        inFlightController.chatMessages ++
          [⟨Role.assistant, JsValue.str "Server error. Please try again in a few moments."⟩] := by
  have h0 : inFlightController.chatMessages = [⟨Role.user, JsValue.str "Hello"⟩] := rfl
  have h1 : (submitResume Entry.sendMessage inFlightController "Hello"
      (FetchResult.resolved ⟨503, "Service Unavailable", BodyResult.parsed JsValue.null⟩)
      ).chatMessages =
      [⟨Role.user, JsValue.str "Hello"⟩,
        ⟨Role.assistant, JsValue.str (genericErrorMessage Entry.sendMessage)⟩] := rfl
  rw [h0, h1]
  simp [genericErrorMessage]

/-- C14, amended: for an accepted submission whose response status `s` satisfies
`500 ≤ s ≤ 599` and whose status text contains neither `401` nor `429`, the assistant
turn is the server-error text when `s = 500` or the status text contains `500`, and the
generic connectivity text of the entry point otherwise. -/
theorem server_range_classification (entry : Entry) (c : AIChatManager) (now : Int)
    (text : String) (c1 : AIChatManager) (p : Pending) (s : Nat) (statusText : String)
    (body : BodyResult) (hacc : submitStart entry c now text = (c1, some p))
    (hs : 500 ≤ s ∧ s ≤ 599)
    (h401 : jsIncludes statusText "401" = false)
    (h429 : jsIncludes statusText "429" = false) :
    (s = 500 ∨ jsIncludes statusText "500" = true →
      (submitResume p.entry c1 p.message
        (FetchResult.resolved ⟨s, statusText, body⟩)).chatMessages =
          c.chatMessages ++ [⟨Role.user, JsValue.str (messageOf entry text)⟩,
            ⟨Role.assistant,
              JsValue.str "Server error. Please try again in a few moments."⟩]) ∧
    (s ≠ 500 → jsIncludes statusText "500" = false →
      (submitResume p.entry c1 p.message
        (FetchResult.resolved ⟨s, statusText, body⟩)).chatMessages =
          c.chatMessages ++ [⟨Role.user, JsValue.str (messageOf entry text)⟩,
            ⟨Role.assistant, JsValue.str (genericErrorMessage entry)⟩]) := by
  have hshown := (accepted_failure entry c now text c1 p _ _ hacc
    (replyOf_status s statusText body (by omega))).1
  have htext := errorText_status entry s statusText (by omega)
  have hn1 : s ≠ 401 := by omega
  have hn2 : s ≠ 429 := by omega
  constructor
  · intro h
    rw [hshown, htext]
    simp [h401, h429, hn1, hn2, h, serverErrorText]
  · intro h1 h2
    rw [hshown, htext]
    simp [h401, h429, hn1, hn2, h1, h2]

theorem server_range_classification_witness :
    (submitResume Entry.sendSuggestionMessage
      (acceptedState (AIChatManager.new "key") 5000 "Pricing") "Pricing"
      (FetchResult.resolved ⟨502, "Bad Gateway", BodyResult.failed "no body"⟩)).chatMessages =
        [⟨Role.user, JsValue.str "Pricing"⟩,
          ⟨Role.assistant, JsValue.str (genericErrorMessage Entry.sendSuggestionMessage)⟩] :=
  (server_range_classification Entry.sendSuggestionMessage (AIChatManager.new "key") 5000
    "Pricing" (acceptedState (AIChatManager.new "key") 5000 "Pricing")
    ⟨Entry.sendSuggestionMessage, "Pricing",
      getAIResponse_start (acceptedState (AIChatManager.new "key") 5000 "Pricing") "Pricing"⟩
    502 "Bad Gateway" (BodyResult.failed "no body") rfl (by decide) (by decide)
    (by decide)).2 (by decide) (by decide)

/-- C15, as stated, fails: a 404 response whose status text contains `500` is shown as
the server-error text, not as the generic connectivity text. -/
theorem other_status_counterexample :
    (submitResume Entry.sendMessage inFlightController "Hello"
      (FetchResult.resolved ⟨404, "Not Found (ref 500)", BodyResult.parsed JsValue.null⟩)
      ).chatMessages ≠
        inFlightController.chatMessages ++
          [⟨Role.assistant, JsValue.str (genericErrorMessage Entry.sendMessage)⟩] := by
  have h0 : inFlightController.chatMessages = [⟨Role.user, JsValue.str "Hello"⟩] := rfl
  have h1 : (submitResume Entry.sendMessage inFlightController "Hello"
      (FetchResult.resolved ⟨404, "Not Found (ref 500)", BodyResult.parsed JsValue.null⟩)
      ).chatMessages =
      [⟨Role.user, JsValue.str "Hello"⟩,
        ⟨Role.assistant, JsValue.str "Server error. Please try again in a few moments."⟩] :=
    rfl
  rw [h0, h1]
  simp [genericErrorMessage]

/-- C15, amended: for an accepted submission whose response has a status `s` of at most
three digits outside 200 to 299 with `s ≠ 401`, `s ≠ 429` and `s` outside 500 to 599,
and a status text that contains none of `401`, `429`, `500`, the assistant turn is the
generic connectivity text of the entry point, which is none of the three specific texts. -/
theorem other_status_generic (entry : Entry) (c : AIChatManager) (now : Int)
    (text : String) (c1 : AIChatManager) (p : Pending) (s : Nat) (statusText : String)
    (body : BodyResult) (hacc : submitStart entry c now text = (c1, some p))
    (hs : s ≤ 999) (hnot2xx : ¬ (200 ≤ s ∧ s ≤ 299)) (hn401 : s ≠ 401) (hn429 : s ≠ 429)
    (hn5xx : ¬ (500 ≤ s ∧ s ≤ 599))
    (h401 : jsIncludes statusText "401" = false)
    (h429 : jsIncludes statusText "429" = false)
    (h500 : jsIncludes statusText "500" = false) :
    (submitResume p.entry c1 p.message
      (FetchResult.resolved ⟨s, statusText, body⟩)).chatMessages =
        c.chatMessages ++ [⟨Role.user, JsValue.str (messageOf entry text)⟩,
          ⟨Role.assistant, JsValue.str (genericErrorMessage entry)⟩] ∧
    genericErrorMessage entry ≠ "Authentication error. Please contact support." ∧
    genericErrorMessage entry ≠
      "Too many requests. Please wait a moment before trying again." ∧
    genericErrorMessage entry ≠ "Server error. Please try again in a few moments." := by
  have hn500 : s ≠ 500 := by omega
  refine ⟨?_, genericErrorMessage_ne entry⟩
  rw [(accepted_failure entry c now text c1 p _ _ hacc
    (replyOf_status s statusText body hnot2xx)).1,
    errorText_status entry s statusText (by omega)]
  simp [h401, h429, h500, hn401, hn429, hn500]

theorem other_status_generic_witness :
    (submitResume Entry.sendMessage inFlightController "Hello"
      (FetchResult.resolved ⟨404, "Not Found", BodyResult.parsed JsValue.null⟩)).chatMessages =
        [⟨Role.user, JsValue.str "Hello"⟩,
          ⟨Role.assistant, JsValue.str (genericErrorMessage Entry.sendMessage)⟩] :=
  (other_status_generic Entry.sendMessage (AIChatManager.new "key") 5000 "Hello"
    inFlightController
    ⟨Entry.sendMessage, "Hello", getAIResponse_start inFlightController "Hello"⟩
    404 "Not Found" (BodyResult.parsed JsValue.null) rfl (by decide) (by decide) (by decide)
    (by decide) (by decide) (by decide) (by decide) (by decide)).1

/-- C16: for every accepted submission whose response has a status outside 200 to 299,
connection health after the completed submission is `error`. -/
theorem status_failure_health (entry : Entry) (c : AIChatManager) (now : Int)
    (text : String) (c1 : AIChatManager) (p : Pending) (s : Nat) (statusText : String)
    (body : BodyResult) (hacc : submitStart entry c now text = (c1, some p))
    (hnot2xx : ¬ (200 ≤ s ∧ s ≤ 299)) :
    (submitResume p.entry c1 p.message
      (FetchResult.resolved ⟨s, statusText, body⟩)).connectionStatus =
        ConnectionStatus.error :=
  (accepted_failure entry c now text c1 p _ _ hacc
    (replyOf_status s statusText body hnot2xx)).2

theorem status_failure_health_witness :
    (submitResume Entry.sendMessage inFlightController "Hello"
      (FetchResult.resolved ⟨500, "Internal Server Error", BodyResult.failed "no body"⟩)
      ).connectionStatus = ConnectionStatus.error :=
  status_failure_health Entry.sendMessage (AIChatManager.new "key") 5000 "Hello"
    inFlightController
    ⟨Entry.sendMessage, "Hello", getAIResponse_start inFlightController "Hello"⟩
    500 "Internal Server Error" (BodyResult.failed "no body") rfl (by decide)

/-- C17 is not what the code does: when `fetch` rejects, the `catch` block of either
entry point sets connection health to `error`, never to `disconnected`. -/
theorem transport_failure_health (entry : Entry) (c : AIChatManager) (message : String)
    (exceptionMessage : String) :
    (submitResume entry c message (FetchResult.rejected exceptionMessage)).connectionStatus =
      ConnectionStatus.error ∧
    (submitResume entry c message (FetchResult.rejected exceptionMessage)).connectionStatus ≠
      ConnectionStatus.disconnected := by
  have h := submitResume_of_error entry c message (FetchResult.rejected exceptionMessage)
    ⟨exceptionMessage⟩ rfl
  rw [h]
  exact ⟨rfl, fun h2 => ConnectionStatus.noConfusion h2⟩

/-- C18, as stated, fails: a transport exception whose message contains `500` is shown as
the server-error text, not as the generic connectivity text. -/
theorem transport_text_counterexample :
    (submitResume Entry.sendMessage inFlightController "Hello"
      (FetchResult.rejected "connect timeout after 500 ms")).chatMessages ≠
        inFlightController.chatMessages ++
          [⟨Role.assistant, JsValue.str (genericErrorMessage Entry.sendMessage)⟩] := by
  have h0 : inFlightController.chatMessages = [⟨Role.user, JsValue.str "Hello"⟩] := rfl
  have h1 : (submitResume Entry.sendMessage inFlightController "Hello"
      (FetchResult.rejected "connect timeout after 500 ms")).chatMessages =
      [⟨Role.user, JsValue.str "Hello"⟩,
        ⟨Role.assistant, JsValue.str "Server error. Please try again in a few moments."⟩] :=
    rfl
  rw [h0, h1]
  simp [genericErrorMessage]

/-- C18, amended: for an accepted submission that fails with a transport exception whose
message contains none of `401`, `429`, `500`, or with a 2xx response whose decoded body
lacks `choices`, a first choice or a `message`, the assistant turn is the generic
connectivity text of the entry point, so the two failure kinds are displayed identically. -/
theorem transport_and_format_failure_generic (entry : Entry) (c : AIChatManager) (now : Int)
    (text : String) (c1 : AIChatManager) (p : Pending)
    (hacc : submitStart entry c now text = (c1, some p)) :
    (∀ exceptionMessage : String,
      jsIncludes exceptionMessage "401" = false → jsIncludes exceptionMessage "429" = false →
      jsIncludes exceptionMessage "500" = false →
      (submitResume p.entry c1 p.message (FetchResult.rejected exceptionMessage)).chatMessages =
        c.chatMessages ++ [⟨Role.user, JsValue.str (messageOf entry text)⟩,
          ⟨Role.assistant, JsValue.str (genericErrorMessage entry)⟩]) ∧
    (∀ (status : Nat) (statusText : String) (data : JsValue),
      200 ≤ status ∧ status ≤ 299 → LacksMessage data →
      (submitResume p.entry c1 p.message
        (FetchResult.resolved ⟨status, statusText, BodyResult.parsed data⟩)).chatMessages =
          c.chatMessages ++ [⟨Role.user, JsValue.str (messageOf entry text)⟩,
            ⟨Role.assistant, JsValue.str (genericErrorMessage entry)⟩]) := by
  constructor
  · intro msg h401 h429 h500
    rw [(accepted_failure entry c now text c1 p (FetchResult.rejected msg) ⟨msg⟩ hacc rfl).1,
      errorText_of_clean entry msg h401 h429 h500]
  · intro status statusText data hstatus hlack
    rw [(accepted_failure entry c now text c1 p _ _ hacc
      (replyOf_lacksMessage status statusText data hstatus hlack)).1,
      errorText_of_clean entry _ (by decide) (by decide) (by decide)]

theorem transport_and_format_failure_generic_witness :
    (submitResume Entry.sendMessage inFlightController "Hello"
      (FetchResult.rejected "Failed to fetch")).chatMessages =
        [⟨Role.user, JsValue.str "Hello"⟩,
          ⟨Role.assistant, JsValue.str (genericErrorMessage Entry.sendMessage)⟩] ∧
    (submitResume Entry.sendMessage inFlightController "Hello"
      (FetchResult.resolved ⟨200, "OK", BodyResult.parsed (JsValue.obj [])⟩)).chatMessages =
        [⟨Role.user, JsValue.str "Hello"⟩,
          ⟨Role.assistant, JsValue.str (genericErrorMessage Entry.sendMessage)⟩] :=
  have key := transport_and_format_failure_generic Entry.sendMessage
    (AIChatManager.new "key") 5000 "Hello" inFlightController
    ⟨Entry.sendMessage, "Hello", getAIResponse_start inFlightController "Hello"⟩ rfl
  ⟨key.1 "Failed to fetch" (by decide) (by decide) (by decide),
    key.2 200 "OK" (JsValue.obj []) (by decide) ⟨JsValue.undefined, rfl, Or.inl rfl⟩⟩

theorem settle_idle (c : AIChatManager) (x : Exchange) (hidle : c.isProcessing = false)
    (hspaced : x.now - c.lastRequestTime ≥ 1000) (htext : jsTrim x.text ≠ "") :
    ∃ c1, settle c x = some c1 ∧ c1.chatMessages = c.chatMessages ++ submissionTurns x ∧
      c1.isProcessing = false ∧ c1.lastRequestTime = x.now := by
  have hi : ¬ Ignored x.entry x.text := fun h => htext h.2
  have hs := submitStart_accept x.entry c x.now x.text hi (by omega) hidle
  refine ⟨submitResume x.entry (acceptedState c x.now (messageOf x.entry x.text))
    (messageOf x.entry x.text) x.result, by simp only [settle, hs], ?_,
    submitResume_isProcessing _ _ _ _, ?_⟩
  · simp only [submissionTurns, terminalTurn]
    cases hr : replyOf x.result with
    | error e =>
      rw [submitResume_of_error _ _ _ _ e hr]
      simp [acceptedState]
    | ok r =>
      rw [submitResume_ok _ _ _ _ _ r (getAIResponse_resume_of_ok _ _ _ r hr)]
      simp [acceptedState]
  · rw [submitResume_lastRequestTime]; rfl

theorem settleAll_idle (xs : List Exchange) :
    ∀ c : AIChatManager, c.isProcessing = false → spaced c.lastRequestTime xs = true →
      (∀ x ∈ xs, jsTrim x.text ≠ "") →
      ∃ c2, settleAll c xs = some c2 ∧
        c2.chatMessages = c.chatMessages ++ xs.flatMap submissionTurns ∧
        c2.isProcessing = false := by
  induction xs with
  | nil =>
    intro c hidle _ _
    exact ⟨c, rfl, by simp, hidle⟩
  | cons x rest ih =>
    intro c hidle hspaced htexts
    simp only [spaced, Bool.and_eq_true, decide_eq_true_eq] at hspaced
    obtain ⟨c1, hs, ht, hp, hl⟩ :=
      settle_idle c x hidle hspaced.1 (htexts x (List.mem_cons_self _ _))
    obtain ⟨c2, hs2, ht2, hp2⟩ := ih c1 hp (by rw [hl]; exact hspaced.2)
      (fun y hy => htexts y (List.mem_cons_of_mem _ hy))
    refine ⟨c2, by simp only [settleAll, hs, hs2], ?_, hp2⟩
    rw [ht2, ht, List.flatMap_cons, List.append_assoc]

/-- C19: for every sequence of submissions with non-empty text made on an idle controller,
each at least 1000 ms after the previous accepted one and each settled before the next,
every submission is accepted and the transcript gains, per submission and in order, its
user turn followed by exactly one assistant turn: the reply on success, the text chosen
from the error on failure. -/
theorem spaced_submissions_complete (c : AIChatManager) (xs : List Exchange)
    (hidle : c.isProcessing = false) (hspaced : spaced c.lastRequestTime xs = true)
    (htexts : ∀ x ∈ xs, jsTrim x.text ≠ "") :
    Option.map AIChatManager.chatMessages (settleAll c xs) =
      some (c.chatMessages ++ xs.flatMap submissionTurns) ∧
    Option.map AIChatManager.isProcessing (settleAll c xs) = some false := by
  obtain ⟨c2, hs, ht, hp⟩ := settleAll_idle xs c hidle hspaced htexts
  rw [hs]
  simp [ht, hp]

theorem spaced_submissions_complete_witness :
    Option.map AIChatManager.chatMessages (settleAll (AIChatManager.new "key")
      threeSubmissions) =
      some [⟨Role.user, JsValue.str "Hello"⟩, ⟨Role.assistant, JsValue.str "Hi there"⟩,
        ⟨Role.user, JsValue.str "Pricing"⟩,
        ⟨Role.assistant,
          JsValue.str "Too many requests. Please wait a moment before trying again."⟩,
        ⟨Role.user, JsValue.str "Thanks"⟩,
        ⟨Role.assistant, JsValue.str (genericErrorMessage Entry.sendMessage)⟩] :=
  (spaced_submissions_complete (AIChatManager.new "key") threeSubmissions rfl (by decide)
    (by decide)).1

theorem foldl_step_outbound (events : List Event) :
    ∀ s : Session,
      (events.foldl step s).outbound.length = s.outbound.length + acceptedCount s events := by
  induction events with
  | nil => intro s; simp [acceptedCount]
  | cons e rest ih =>
    intro s
    rw [List.foldl_cons, ih (step s e)]
    cases e with
    | submit entry now text =>
      simp only [acceptedCount, step, Session.afterStart]
      cases h : (submitStart entry s.chat now text).2 with
      | none => simp
      | some p => simp; omega
    | resolve index result =>
      simp only [acceptedCount, step]
      cases h : s.pending.get? index with
      | none => simp
      | some p => simp

/-- C20: no automatic retry. A call that passes the guard issues exactly one request, a
call that is ignored or rejected issues none, and the completion of a request issues none
whatever its result; over a whole run the number of requests issued is the number of
accepted calls. -/
theorem no_automatic_retry (s : Session) :
    (∀ (entry : Entry) (now : Int) (text : String),
      (¬ Ignored entry text ∧ now - s.chat.lastRequestTime ≥ 1000 ∧
          s.chat.isProcessing = false →
        (step s (Event.submit entry now text)).outbound =
          s.outbound ++ [getAIResponse_start
            (acceptedState s.chat now (messageOf entry text)) (messageOf entry text)]) ∧
      (Ignored entry text ∨ now - s.chat.lastRequestTime < 1000 ∨
          s.chat.isProcessing = true →
        (step s (Event.submit entry now text)).outbound = s.outbound)) ∧
    (∀ (index : Nat) (result : FetchResult),
      (step s (Event.resolve index result)).outbound = s.outbound ∧
      (step s (Event.resolve index result)).pending.length ≤ s.pending.length) ∧
    (∀ (apiKey : String) (events : List Event),
      (run apiKey events).outbound.length = acceptedCount (Session.fresh apiKey) events) := by
  refine ⟨?_, ?_, ?_⟩
  · intro entry now text
    constructor
    · rintro ⟨hi, hge, hp⟩
      have hs := submitStart_accept entry s.chat now text hi (by omega) hp
      simp only [step, Session.afterStart, hs]
    · intro h
      rcases submitStart_cases entry s.chat now text with
        ⟨_, hs⟩ | ⟨_, _, hs⟩ | ⟨_, _, _, hs⟩ | ⟨hi, hge, hp, _⟩
      · simp only [step, Session.afterStart, hs]
      · simp only [step, Session.afterStart, hs]
      · simp only [step, Session.afterStart, hs]
      · rcases h with h | h | h
        · exact absurd h hi
        · exact absurd h hge
        · rw [hp] at h; exact absurd h (by decide)
  · intro index result
    simp only [step]
    cases h : s.pending.get? index with
    | none => simp
    | some p =>
      simp only [true_and]
      rw [List.length_eraseIdx]
      split <;> omega
  · intro apiKey events
    unfold run
    rw [foldl_step_outbound]
    simp [Session.fresh]

theorem no_automatic_retry_witness :
    (step (run "key" [Event.submit Entry.sendMessage 5000 "Hello"])
      (Event.resolve 0 (FetchResult.rejected "Failed to fetch"))).outbound.length = 1 ∧
    (step (Session.fresh "key") (Event.submit Entry.sendMessage 500 "Hello")).outbound = [] :=
  ⟨by
      rw [((no_automatic_retry (run "key" [Event.submit Entry.sendMessage 5000 "Hello"])).2.1 0
        (FetchResult.rejected "Failed to fetch")).1]
      rfl,
    ((no_automatic_retry (Session.fresh "key")).1 Entry.sendMessage 500 "Hello").2
      (Or.inr (Or.inl (by decide)))⟩

/-! ## The claims, third part -/

/-- C21 is not what the code does on `sendSuggestionMessage`, which lacks the test
`if (!message) return;` that `sendMessage` has: a suggestion of two blanks on a fresh
page is accepted, its request is issued, the guard is taken and a user turn is appended. -/
theorem empty_suggestion_is_sent :
    jsTrim "  " = "" ∧
    (sendSuggestionMessage_start (AIChatManager.new "key") 5000 "  ").2.isSome = true ∧
    (sendSuggestionMessage_start (AIChatManager.new "key") 5000 "  ").1.isProcessing = true ∧
    (sendSuggestionMessage_start (AIChatManager.new "key") 5000 "  ").1.lastRequestTime = 5000 ∧
    (sendSuggestionMessage_start (AIChatManager.new "key") 5000 "  ").1.chatMessages.length = 1 :=
  ⟨by decide, rfl, rfl, rfl, rfl⟩

/-- What the code does with a text whose trimmed form is empty: `sendMessage` returns at
once, so no request is issued and the controller (transcript, guard state, history
window, health) and the whole session are unchanged; `sendSuggestionMessage` lacks the
test and issues a request for such a text whenever the guard lets it through. -/
theorem empty_input_is_noop (c : AIChatManager) (now : Int) (text : String)
    (hempty : jsTrim text = "") :
    sendMessage_start c now text = (c, none) ∧
    (∀ s : Session, s.chat = c → step s (Event.submit Entry.sendMessage now text) = s) ∧
    ((sendSuggestionMessage_start c now text).2.isSome = true ↔
      (c.isProcessing = false ∧ now - c.lastRequestTime ≥ 1000)) := by
  have h := submitStart_ignored c now text hempty
  refine ⟨h, ?_, ?_⟩
  · intro s hs
    subst hs
    simp only [step, Session.afterStart, h]
  · have hi : ¬ Ignored Entry.sendSuggestionMessage text := fun h2 => by cases h2.1
    have e : sendSuggestionMessage_start c now text =
        submitStart Entry.sendSuggestionMessage c now text := rfl
    rw [e]
    rcases submitStart_cases Entry.sendSuggestionMessage c now text with
      ⟨h0, _⟩ | ⟨_, hlt, hs⟩ | ⟨_, hge, hp, hs⟩ | ⟨_, hge, hp, hs⟩
    · exact absurd h0 hi
    · rw [hs]
      simp only [Option.isSome_none, Bool.false_eq_true, false_iff, not_and]
      intro _; omega
    · rw [hs]; simp [hp]
    · rw [hs]
      simp only [Option.isSome_some, true_iff]
      exact ⟨hp, by omega⟩

theorem empty_input_is_noop_witness :
    jsTrim " \n\t " = "" ∧
    sendMessage_start inFlightController 9000 " \n\t " = (inFlightController, none) :=
  ⟨by decide, (empty_input_is_noop inFlightController 9000 " \n\t " (by decide)).1⟩

/-- C22: on acceptance `isProcessing` is true and `lastRequestTime` is the time of the
call, the user turn is already in the transcript of the state in which the request is
issued, and whatever the request settles to the completed call keeps that user turn and
adds one assistant turn after it. -/
theorem acceptance_effects (entry : Entry) (c : AIChatManager) (now : Int) (text : String)
    (c1 : AIChatManager) (p : Pending)
    (hacc : submitStart entry c now text = (c1, some p)) :
    c1.isProcessing = true ∧
    c1.lastRequestTime = now ∧
    c1.chatMessages = c.chatMessages ++ [⟨Role.user, JsValue.str (messageOf entry text)⟩] ∧
    p.request = getAIResponse_start c1 (messageOf entry text) ∧
    (∀ result : FetchResult,
      (submitResume p.entry c1 p.message result).chatMessages =
        c.chatMessages ++ [⟨Role.user, JsValue.str (messageOf entry text)⟩,
          terminalTurn ⟨entry, now, text, result⟩]) := by
  obtain ⟨_, _, _, hc1, hp⟩ := submitStart_some entry c now text c1 p hacc
  refine ⟨by rw [hc1]; rfl, by rw [hc1]; rfl, by rw [hc1]; rfl, by rw [hp], ?_⟩
  intro result
  subst hp
  simp only [terminalTurn]
  cases hr : replyOf result with
  | error e =>
    rw [submitResume_of_error _ _ _ _ e hr, hc1]
    simp [acceptedState]
  | ok r =>
    rw [submitResume_ok _ _ _ _ _ r (getAIResponse_resume_of_ok _ _ _ r hr), hc1]
    simp [acceptedState]

theorem acceptance_effects_witness :
    inFlightController.isProcessing = true ∧
    inFlightController.lastRequestTime = 5000 ∧
    inFlightController.chatMessages = [⟨Role.user, JsValue.str "Hello"⟩] ∧
    (submitResume Entry.sendMessage inFlightController "Hello"
      (FetchResult.rejected "Failed to fetch")).chatMessages =
        [⟨Role.user, JsValue.str "Hello"⟩,
          ⟨Role.assistant, JsValue.str (genericErrorMessage Entry.sendMessage)⟩] :=
  have key := acceptance_effects Entry.sendMessage (AIChatManager.new "key") 5000 "Hello"
    inFlightController
    ⟨Entry.sendMessage, "Hello", getAIResponse_start inFlightController "Hello"⟩ rfl
  ⟨key.1, key.2.1, key.2.2.1, key.2.2.2.2 (FetchResult.rejected "Failed to fetch")⟩

/-- C23: no failure is fatal. For an accepted submission whose request fails in any way,
the completed call has turned the error into one assistant turn after the user turn,
`isProcessing` is false, and a later submission with non-empty text made at least 1000 ms
after the failed one was accepted is itself accepted. -/
theorem failure_is_not_fatal (entry : Entry) (c : AIChatManager) (now : Int) (text : String)
    (c1 : AIChatManager) (p : Pending) (result : FetchResult)
    (hacc : submitStart entry c now text = (c1, some p))
    (hfail : result.isFailure = true) :
    (∃ e, replyOf result = Except.error e ∧
      (submitResume p.entry c1 p.message result).chatMessages =
        c.chatMessages ++ [⟨Role.user, JsValue.str (messageOf entry text)⟩,
          ⟨Role.assistant, JsValue.str (errorText entry e.message)⟩]) ∧
    (submitResume p.entry c1 p.message result).isProcessing = false ∧
    (∀ (entry2 : Entry) (now2 : Int) (text2 : String),
      jsTrim text2 ≠ "" → now2 - now ≥ 1000 →
      (submitStart entry2 (submitResume p.entry c1 p.message result) now2 text2).2.isSome =
        true) := by
  obtain ⟨e, he⟩ := (isFailure_iff_error c1 p.message result).1 hfail
  have hr : replyOf result = Except.error e := by
    rw [← getAIResponse_resume_snd c1 p.message result, he]
  obtain ⟨_, _, _, hc1, _⟩ := submitStart_some entry c now text c1 p hacc
  refine ⟨⟨e, hr, (accepted_failure entry c now text c1 p result e hacc hr).1⟩,
    submitResume_isProcessing _ _ _ _, ?_⟩
  intro entry2 now2 text2 htext hge
  have hlast : (submitResume p.entry c1 p.message result).lastRequestTime = now := by
    rw [submitResume_lastRequestTime, hc1]; rfl
  have hi : ¬ Ignored entry2 text2 := fun h => htext h.2
  rw [submitStart_accept entry2 _ now2 text2 hi (by rw [hlast]; omega)
    (submitResume_isProcessing _ _ _ _)]
  rfl

theorem failure_is_not_fatal_witness :
    (submitResume Entry.sendMessage inFlightController "Hello"
      (FetchResult.rejected "Failed to fetch")).isProcessing = false ∧
    (submitStart Entry.sendSuggestionMessage
      (submitResume Entry.sendMessage inFlightController "Hello"
        (FetchResult.rejected "Failed to fetch")) 6000 "Pricing").2.isSome = true :=
  have key := failure_is_not_fatal Entry.sendMessage (AIChatManager.new "key") 5000 "Hello"
    inFlightController
    ⟨Entry.sendMessage, "Hello", getAIResponse_start inFlightController "Hello"⟩
    (FetchResult.rejected "Failed to fetch") rfl rfl
  ⟨key.2.1, key.2.2 Entry.sendSuggestionMessage 6000 "Pricing" (by decide) (by decide)⟩

theorem paired_append (u a : Turn) (hu : u.role = Role.user) (ha : a.role = Role.assistant) :
    ∀ w : List Turn, PairedWindow w → PairedWindow (w ++ [u, a])
  | [], _ => ⟨hu, ha, trivial⟩
  | [_], h => h.elim
  | _ :: _ :: rest, h => ⟨h.1, h.2.1, paired_append u a hu ha rest h.2.2⟩

theorem paired_drop : ∀ (k : Nat) (w : List Turn), PairedWindow w → PairedWindow (w.drop (2 * k))
  | 0, w, h => by simpa using h
  | k + 1, [], _ => by simp [PairedWindow]
  | _ + 1, [_], h => h.elim
  | k + 1, _ :: _ :: rest, h => by
    have h2 : 2 * (k + 1) = 2 * k + 1 + 1 := by omega
    rw [h2, List.drop_succ_cons, List.drop_succ_cons]
    exact paired_drop k rest h.2.2

theorem paired_length : ∀ w : List Turn, PairedWindow w → w.length % 2 = 0
  | [], _ => rfl
  | [_], h => h.elim
  | _ :: _ :: rest, h => by
    have := paired_length rest h.2.2
    simp only [List.length_cons]
    omega

theorem paired_roles : ∀ (w : List Turn), PairedWindow w → ∀ k, 2 * k < w.length →
    (w[2 * k]?).map Turn.role = some Role.user ∧
    (w[2 * k + 1]?).map Turn.role = some Role.assistant
  | [], _, k, hk => by simp at hk
  | [_], h, _, _ => h.elim
  | a :: b :: rest, h, 0, _ => by simp [h.1, h.2.1]
  | a :: b :: rest, h, k + 1, hk => by
    have hk2 : 2 * k < rest.length := by
      simp only [List.length_cons] at hk
      omega
    have ih := paired_roles rest h.2.2 k hk2
    have e1 : 2 * (k + 1) = 2 * k + 1 + 1 := by omega
    have e2 : 2 * (k + 1) + 1 = 2 * k + 1 + 1 + 1 := by omega
    rw [e1, List.getElem?_cons_succ, List.getElem?_cons_succ, List.getElem?_cons_succ,
      List.getElem?_cons_succ]
    exact ih

theorem paired_pushExchange (w : List Turn) (message : String) (reply : JsValue)
    (h : PairedWindow w) : PairedWindow (pushExchange w message reply) := by
  rw [pushExchange_eq]
  unfold sliceLast
  have hp : PairedWindow (w ++ exchangeTurns message reply) :=
    paired_append _ _ rfl rfl w h
  have hl := paired_length _ hp
  have hk : (w ++ exchangeTurns message reply).length - 10 =
      2 * (((w ++ exchangeTurns message reply).length - 10) / 2) := by omega
  rw [hk]
  exact paired_drop _ _ hp

theorem step_paired (s : Session) (e : Event) (h : PairedWindow s.chat.conversationHistory) :
    PairedWindow (step s e).chat.conversationHistory := by
  cases e with
  | submit entry now text =>
    have hh := submitStart_history entry s.chat now text
    simp only [step, Session.afterStart]
    split <;> (simp only; rw [hh]; exact h)
  | resolve index result =>
    simp only [step]
    split
    · exact h
    · rename_i p _
      simp only
      rw [submitResume_history]
      rcases getAIResponse_resume_cases s.chat p.message result with ⟨e, h1⟩ | ⟨r, h1⟩
      · rw [h1]; exact h
      · rw [h1]; exact paired_pushExchange _ _ _ h

theorem run_paired (apiKey : String) (events : List Event) :
    PairedWindow (run apiKey events).chat.conversationHistory := by
  unfold run
  apply foldl_step_invariant (fun s => PairedWindow s.chat.conversationHistory) step_paired
  simp [Session.fresh, AIChatManager.new, PairedWindow]

/-- C24: in every reachable state the history window is a sequence of complete pairs: its
length is even, the turn at every even index is a user turn and the turn right after it
an assistant turn, and no turn of the window has role system. -/
theorem window_is_pairs (apiKey : String) (events : List Event) :
    (run apiKey events).chat.conversationHistory.length % 2 = 0 ∧
    (∀ k, 2 * k < (run apiKey events).chat.conversationHistory.length →
      ((run apiKey events).chat.conversationHistory[2 * k]?).map Turn.role =
        some Role.user ∧
      ((run apiKey events).chat.conversationHistory[2 * k + 1]?).map Turn.role =
        some Role.assistant) ∧
    (∀ t ∈ (run apiKey events).chat.conversationHistory, t.role ≠ Role.system) := by
  have hp := run_paired apiKey events
  refine ⟨paired_length _ hp, paired_roles _ hp, ?_⟩
  intro t ht
  rcases run_windowRoles apiKey events t ht with h | h <;> simp [h]

theorem window_is_pairs_witness :
    ((run "key" [Event.submit Entry.sendMessage 5000 "Hello",
      Event.resolve 0 (FetchResult.resolved (successResponse (JsValue.str "Hi there")))]
      ).chat.conversationHistory[0]?).map Turn.role = some Role.user ∧
    ((run "key" [Event.submit Entry.sendMessage 5000 "Hello",
      Event.resolve 0 (FetchResult.resolved (successResponse (JsValue.str "Hi there")))]
      ).chat.conversationHistory[1]?).map Turn.role = some Role.assistant :=
  (window_is_pairs "key" [Event.submit Entry.sendMessage 5000 "Hello",
    Event.resolve 0 (FetchResult.resolved (successResponse (JsValue.str "Hi there")))]).2.1 0
    (by decide)

/-- C25: a submission rejected for cooldown or because a request is in flight issues no
request and leaves `isProcessing`, `lastRequestTime`, the history window and connection
health as they were; so a rejection while a request is in flight keeps `isProcessing`
true and a rejection does not move `lastRequestTime`. -/
theorem rejection_keeps_state (entry : Entry) (c : AIChatManager) (now : Int) (text : String)
    (htext : jsTrim text ≠ "")
    (hrej : now - c.lastRequestTime < 1000 ∨ c.isProcessing = true) :
    (submitStart entry c now text).2 = none ∧
    (submitStart entry c now text).1.isProcessing = c.isProcessing ∧
    (submitStart entry c now text).1.lastRequestTime = c.lastRequestTime ∧
    (submitStart entry c now text).1.conversationHistory = c.conversationHistory ∧
    (submitStart entry c now text).1.connectionStatus = c.connectionStatus ∧
    (c.isProcessing = true → (submitStart entry c now text).1.isProcessing = true) := by
  have hi : ¬ Ignored entry text := fun h => htext h.2
  rcases submitStart_cases entry c now text with
    ⟨h0, _⟩ | ⟨_, _, hs⟩ | ⟨_, _, _, hs⟩ | ⟨_, hge, hp, _⟩
  · exact absurd h0 hi
  · rw [hs]; exact ⟨rfl, rfl, rfl, rfl, rfl, fun h => h⟩
  · rw [hs]; exact ⟨rfl, rfl, rfl, rfl, rfl, fun h => h⟩
  · rcases hrej with h | h
    · exact absurd h hge
    · rw [hp] at h; exact absurd h (by decide)

theorem rejection_keeps_state_witness :
    (submitStart Entry.sendSuggestionMessage inFlightController 7000 "Pricing").1.isProcessing =
      true ∧
    (submitStart Entry.sendSuggestionMessage inFlightController 7000
      "Pricing").1.lastRequestTime = 5000 :=
  have key := rejection_keeps_state Entry.sendSuggestionMessage inFlightController 7000
    "Pricing" (by decide) (Or.inr rfl)
  ⟨key.2.1, key.2.2.1⟩

/-- C26: the cooldown check comes first. For every submission with non-empty text the
turn `Please wait a moment before sending another message.` is what is appended exactly
when `now - lastRequestTime < 1000`, and the turn `I'm still processing your previous
message. Please wait.` exactly when `now - lastRequestTime ≥ 1000` and `isProcessing` is
true; so a call made while a request is in flight and within 1000 ms of its acceptance
gets the first text. -/
theorem cooldown_takes_precedence (entry : Entry) (c : AIChatManager) (now : Int)
    (text : String) (htext : jsTrim text ≠ "") :
    ((submitStart entry c now text).1.chatMessages = c.chatMessages ++
        [⟨Role.assistant, JsValue.str "Please wait a moment before sending another message."⟩] ↔
      now - c.lastRequestTime < 1000) ∧
    ((submitStart entry c now text).1.chatMessages = c.chatMessages ++
        [⟨Role.assistant,
          JsValue.str "I'm still processing your previous message. Please wait."⟩] ↔
      (now - c.lastRequestTime ≥ 1000 ∧ c.isProcessing = true)) ∧
    (c.isProcessing = true → now - c.lastRequestTime < 1000 →
      (submitStart entry c now text).1.chatMessages = c.chatMessages ++
        [⟨Role.assistant,
          JsValue.str "Please wait a moment before sending another message."⟩]) := by
  have hi : ¬ Ignored entry text := fun h => htext h.2
  rcases submitStart_cases entry c now text with
    ⟨h0, _⟩ | ⟨_, hlt, hs⟩ | ⟨_, hge, hp, hs⟩ | ⟨_, hge, hp, hs⟩
  · exact absurd h0 hi
  · rw [hs]
    refine ⟨⟨fun _ => hlt, fun _ => rfl⟩, ⟨?_, ?_⟩, fun _ _ => rfl⟩
    · intro h
      simp [pleaseWaitTurn] at h
    · intro h; omega
  · rw [hs]
    refine ⟨⟨?_, fun h => absurd h hge⟩, ⟨fun _ => ⟨by omega, hp⟩, fun _ => rfl⟩,
      fun _ h => absurd h hge⟩
    intro h
    simp [stillProcessingTurn] at h
  · rw [hs]
    refine ⟨⟨?_, fun h => absurd h hge⟩, ⟨?_, ?_⟩, fun _ h => absurd h hge⟩
    · intro h
      simp [acceptedState] at h
    · intro h
      simp [acceptedState] at h
    · intro h
      rw [hp] at h
      exact absurd h.2 (by decide)

theorem cooldown_takes_precedence_witness :
    inFlightController.isProcessing = true ∧
    (submitStart Entry.sendSuggestionMessage inFlightController 5500 "Pricing").1.chatMessages =
      [⟨Role.user, JsValue.str "Hello"⟩,
        ⟨Role.assistant, JsValue.str "Please wait a moment before sending another message."⟩] :=
  ⟨rfl,
    (cooldown_takes_precedence Entry.sendSuggestionMessage inFlightController 5500 "Pricing"
      (by decide)).2.2 rfl (by decide)⟩

theorem step_resolve_lastRequestTime (s : Session) (index : Nat) (result : FetchResult) :
    (step s (Event.resolve index result)).chat.lastRequestTime = s.chat.lastRequestTime := by
  simp only [step]
  cases h : s.pending.get? index with
  | none => rfl
  | some p => exact submitResume_lastRequestTime _ _ _ _

theorem step_submit_lastRequestTime (s : Session) (entry : Entry) (now : Int) (text : String) :
    ((submitStart entry s.chat now text).2.isSome = false ∧
      (step s (Event.submit entry now text)).chat.lastRequestTime = s.chat.lastRequestTime) ∨
    ((submitStart entry s.chat now text).2.isSome = true ∧
      (step s (Event.submit entry now text)).chat.lastRequestTime = now ∧
      now - s.chat.lastRequestTime ≥ 1000) := by
  rcases submitStart_cases entry s.chat now text with
    ⟨_, hs⟩ | ⟨_, _, hs⟩ | ⟨_, _, _, hs⟩ | ⟨_, hge, _, hs⟩
  · left; exact ⟨by rw [hs]; rfl, by simp only [step, Session.afterStart, hs]⟩
  · left; exact ⟨by rw [hs]; rfl, by simp only [step, Session.afterStart, hs]⟩
  · left; exact ⟨by rw [hs]; rfl, by simp only [step, Session.afterStart, hs]⟩
  · right
    exact ⟨by rw [hs]; rfl, by simp only [step, Session.afterStart, hs, acceptedState],
      by omega⟩

theorem step_lastRequestTime_mono (s : Session) (e : Event) :
    (step s e).chat.lastRequestTime ≥ s.chat.lastRequestTime := by
  cases e with
  | submit entry now text =>
    rcases step_submit_lastRequestTime s entry now text with ⟨_, h⟩ | ⟨_, h, hge⟩
    · rw [h]
    · rw [h]; omega
  | resolve index result => rw [step_resolve_lastRequestTime]

theorem acceptedTimes_chain (events : List Event) :
    ∀ s : Session,
      List.Chain (fun a b : Int => b - a ≥ 1000) s.chat.lastRequestTime
        (acceptedTimes s events) ∧
      (events.foldl step s).chat.lastRequestTime =
        ((acceptedTimes s events).getLast?).getD s.chat.lastRequestTime := by
  induction events with
  | nil => intro s; exact ⟨List.Chain.nil, rfl⟩
  | cons e rest ih =>
    intro s
    cases e with
    | submit entry now text =>
      obtain ⟨hc, hl⟩ := ih (step s (Event.submit entry now text))
      rcases step_submit_lastRequestTime s entry now text with ⟨hn, h⟩ | ⟨hy, h, hge⟩
      · simp only [acceptedTimes, hn, Bool.false_eq_true, if_false, List.nil_append,
          List.foldl_cons]
        rw [h] at hc hl
        exact ⟨hc, hl⟩
      · simp only [acceptedTimes, hy, if_true, List.singleton_append, List.foldl_cons]
        rw [h] at hc hl
        refine ⟨List.Chain.cons hge hc, ?_⟩
        rw [hl, List.getLast?_cons]
        rfl
    | resolve index result =>
      obtain ⟨hc, hl⟩ := ih (step s (Event.resolve index result))
      rw [step_resolve_lastRequestTime] at hc hl
      simp only [acceptedTimes, List.foldl_cons]
      exact ⟨hc, hl⟩

/-- C27: rate limit over a whole trace. For any sequence of calls and completions at
arbitrary times, each accepted call is at least 1000 ms after the previous accepted one
(the first at least 1000 ms after the initial value 0), `lastRequestTime` is the time of
the most recently accepted call, 0 if there is none, and no event makes `lastRequestTime`
smaller. -/
theorem rate_limit_over_trace (apiKey : String) (events : List Event) :
    List.Chain (fun a b : Int => b - a ≥ 1000) 0
      (acceptedTimes (Session.fresh apiKey) events) ∧
    (run apiKey events).chat.lastRequestTime =
      ((acceptedTimes (Session.fresh apiKey) events).getLast?).getD 0 ∧
    (∀ e : Event,
      (step (run apiKey events) e).chat.lastRequestTime ≥
        (run apiKey events).chat.lastRequestTime) := by
  obtain ⟨hc, hl⟩ := acceptedTimes_chain events (Session.fresh apiKey)
  exact ⟨hc, hl, fun e => step_lastRequestTime_mono _ e⟩

theorem rate_limit_over_trace_witness :
    acceptedTimes (Session.fresh "key") sampleEvents = [5000, 6000] ∧
    (run "key" sampleEvents).chat.lastRequestTime = 6000 :=
  ⟨by decide, (rate_limit_over_trace "key" sampleEvents).2.1.trans (by decide)⟩

theorem start_agree (c : AIChatManager) (now : Int) (m : String) (htrim : jsTrim m = m)
    (hne : m ≠ "") :
    (sendMessage_start c now m).1 = (sendSuggestionMessage_start c now m).1 ∧
    (sendMessage_start c now m).2.map Pending.request =
      (sendSuggestionMessage_start c now m).2.map Pending.request ∧
    (sendMessage_start c now m).2.map Pending.message =
      (sendSuggestionMessage_start c now m).2.map Pending.message := by
  have hi1 : ¬ Ignored Entry.sendMessage m := fun h => hne (by rw [← htrim]; exact h.2)
  have hi2 : ¬ Ignored Entry.sendSuggestionMessage m := fun h => by cases h.1
  have hm : messageOf Entry.sendMessage m = messageOf Entry.sendSuggestionMessage m := by
    simp only [messageOf, htrim]
  by_cases hlt : now - c.lastRequestTime < 1000
  · have h1 := submitStart_cooldown Entry.sendMessage c now m hi1 hlt
    have h2 := submitStart_cooldown Entry.sendSuggestionMessage c now m hi2 hlt
    simp only [submitStart] at h1 h2
    rw [h1, h2]
    exact ⟨rfl, rfl, rfl⟩
  · by_cases hp : c.isProcessing = true
    · have h1 := submitStart_busy Entry.sendMessage c now m hi1 hlt hp
      have h2 := submitStart_busy Entry.sendSuggestionMessage c now m hi2 hlt hp
      simp only [submitStart] at h1 h2
      rw [h1, h2]
      exact ⟨rfl, rfl, rfl⟩
    · have hp0 : c.isProcessing = false := by simpa using hp
      have h1 := submitStart_accept Entry.sendMessage c now m hi1 hlt hp0
      have h2 := submitStart_accept Entry.sendSuggestionMessage c now m hi2 hlt hp0
      simp only [submitStart] at h1 h2
      rw [h1, h2, hm]
      exact ⟨rfl, rfl, rfl⟩

/-- C28: the two entry points are the same controller step. For a text `m` that is
non-empty and already trimmed, `sendMessage` with the input `m` and
`sendSuggestionMessage(m)` leave the same controller and issue the same request; once the
request has settled they leave the same guard state, history window and health, and the
same transcript unless the failure is classified as generic, in which case `sendMessage`
shows the text ending in `or contact our support team for assistance.` and
`sendSuggestionMessage` the text without it. -/
theorem entry_points_agree (c : AIChatManager) (now : Int) (m : String)
    (result : FetchResult) (htrim : jsTrim m = m) (hne : m ≠ "") :
    (sendMessage_start c now m).1 = (sendSuggestionMessage_start c now m).1 ∧
    (sendMessage_start c now m).2.map Pending.request =
      (sendSuggestionMessage_start c now m).2.map Pending.request ∧
    (∀ c1 : AIChatManager,
      (sendMessage_resume c1 m result).isProcessing =
        (sendSuggestionMessage_resume c1 m result).isProcessing ∧
      (sendMessage_resume c1 m result).lastRequestTime =
        (sendSuggestionMessage_resume c1 m result).lastRequestTime ∧
      (sendMessage_resume c1 m result).conversationHistory =
        (sendSuggestionMessage_resume c1 m result).conversationHistory ∧
      (sendMessage_resume c1 m result).connectionStatus =
        (sendSuggestionMessage_resume c1 m result).connectionStatus ∧
      (∀ r, replyOf result = Except.ok r →
        sendMessage_resume c1 m result = sendSuggestionMessage_resume c1 m result) ∧
      (∀ e, replyOf result = Except.error e →
        (jsIncludes e.message "401" = true ∨ jsIncludes e.message "429" = true ∨
          jsIncludes e.message "500" = true) →
        sendMessage_resume c1 m result = sendSuggestionMessage_resume c1 m result) ∧
      (∀ e, replyOf result = Except.error e →
        jsIncludes e.message "401" = false → jsIncludes e.message "429" = false →
        jsIncludes e.message "500" = false →
        (sendMessage_resume c1 m result).chatMessages = c1.chatMessages ++
          [⟨Role.assistant, JsValue.str
            "I apologize, but I'm having trouble connecting to my AI service right now. Please try again in a moment or contact our support team for assistance."⟩] ∧
        (sendSuggestionMessage_resume c1 m result).chatMessages = c1.chatMessages ++
          [⟨Role.assistant, JsValue.str
            "I apologize, but I'm having trouble connecting to my AI service right now. Please try again in a moment."⟩])) := by
  obtain ⟨hs1, hs2, _⟩ := start_agree c now m htrim hne
  refine ⟨hs1, hs2, ?_⟩
  intro c1
  have e1 : sendMessage_resume c1 m result = submitResume Entry.sendMessage c1 m result := rfl
  have e2 : sendSuggestionMessage_resume c1 m result =
      submitResume Entry.sendSuggestionMessage c1 m result := rfl
  rw [e1, e2]
  refine ⟨?_, ?_, ?_, ?_, ?_, ?_, ?_⟩
  · rw [submitResume_isProcessing, submitResume_isProcessing]
  · rw [submitResume_lastRequestTime, submitResume_lastRequestTime]
  · rw [submitResume_history, submitResume_history]
  · cases hr : replyOf result with
    | error e =>
      rw [submitResume_of_error _ _ _ _ e hr, submitResume_of_error _ _ _ _ e hr]
    | ok r =>
      rw [submitResume_ok _ _ _ _ _ r (getAIResponse_resume_of_ok _ _ _ r hr),
        submitResume_ok _ _ _ _ _ r (getAIResponse_resume_of_ok _ _ _ r hr)]
  · intro r hr
    rw [submitResume_ok _ _ _ _ _ r (getAIResponse_resume_of_ok _ _ _ r hr),
      submitResume_ok _ _ _ _ _ r (getAIResponse_resume_of_ok _ _ _ r hr)]
  · intro e hr hsome
    rw [submitResume_of_error _ _ _ _ e hr, submitResume_of_error _ _ _ _ e hr,
      errorText_eq, errorText_eq]
    rcases hsome with h | h | h
    · simp [h]
    · by_cases h1 : jsIncludes e.message "401" = true <;> simp [h, h1]
    · by_cases h1 : jsIncludes e.message "401" = true <;>
        by_cases h2 : jsIncludes e.message "429" = true <;> simp [h, h1, h2]
  · intro e hr h401 h429 h500
    rw [submitResume_of_error _ _ _ _ e hr, submitResume_of_error _ _ _ _ e hr,
      errorText_of_clean _ _ h401 h429 h500, errorText_of_clean _ _ h401 h429 h500]
    exact ⟨rfl, rfl⟩

theorem entry_points_agree_witness :
    sendMessage_resume inFlightController "Hello"
      (FetchResult.resolved ⟨429, "Too Many Requests", BodyResult.failed "no body"⟩) =
    sendSuggestionMessage_resume inFlightController "Hello"
      (FetchResult.resolved ⟨429, "Too Many Requests", BodyResult.failed "no body"⟩) :=
  ((entry_points_agree (AIChatManager.new "key") 5000 "Hello"
    (FetchResult.resolved ⟨429, "Too Many Requests", BodyResult.failed "no body"⟩)
    (by decide) (by decide)).2.2 inFlightController).2.2.2.2.2.1
      ⟨statusErrorMessage 429 "Too Many Requests"⟩ rfl (Or.inr (Or.inl (by decide)))

/-- C29: error classification is a first-match substring test on the message of the
error, in the order `401`, `429`, `500`: whenever `getAIResponse` throws an error `e`,
the assistant turn shown is the authentication text if `e.message` contains `401`, else
the rate-limit text if it contains `429`, else the server-error text if it contains
`500`, else the generic text of the entry point. For a status outside 200 to 299 the
message is `API request failed: ` followed by the status, a blank and the status text, so
each of the three needles is found when it occurs in the status number or in the status
text. -/
theorem classification_is_first_match (entry : Entry) (c : AIChatManager) (message : String)
    (result : FetchResult) (e : JsError) (h : replyOf result = Except.error e) :
    (submitResume entry c message result).chatMessages = c.chatMessages ++
      [⟨Role.assistant, JsValue.str
        (if jsIncludes e.message "401" = true then
          "Authentication error. Please contact support."
        else if jsIncludes e.message "429" = true then
          "Too many requests. Please wait a moment before trying again."
        else if jsIncludes e.message "500" = true then
          "Server error. Please try again in a few moments."
        else genericErrorMessage entry)⟩] ∧
    (∀ (status : Nat) (statusText : String) (body : BodyResult),
      ¬ (200 ≤ status ∧ status ≤ 299) →
      replyOf (FetchResult.resolved ⟨status, statusText, body⟩) =
        Except.error ⟨"API request failed: " ++ toString status ++ " " ++ statusText⟩ ∧
      jsIncludes ("API request failed: " ++ toString status ++ " " ++ statusText) "401" =
        (jsIncludes (toString status) "401" || jsIncludes statusText "401") ∧
      jsIncludes ("API request failed: " ++ toString status ++ " " ++ statusText) "429" =
        (jsIncludes (toString status) "429" || jsIncludes statusText "429") ∧
      jsIncludes ("API request failed: " ++ toString status ++ " " ++ statusText) "500" =
        (jsIncludes (toString status) "500" || jsIncludes statusText "500")) := by
  constructor
  · rw [submitResume_of_error entry c message result e h, errorText_eq]
    rfl
  · intro status statusText body hnot
    exact ⟨replyOf_status status statusText body hnot,
      jsIncludes_statusErrorMessage status statusText "401" (by decide) (by decide),
      jsIncludes_statusErrorMessage status statusText "429" (by decide) (by decide),
      jsIncludes_statusErrorMessage status statusText "500" (by decide) (by decide)⟩

theorem classification_is_first_match_witness :
    (submitResume Entry.sendSuggestionMessage inFlightController "Hello"
      (FetchResult.rejected "error 429 after 401")).chatMessages =
        [⟨Role.user, JsValue.str "Hello"⟩,
          ⟨Role.assistant, JsValue.str "Authentication error. Please contact support."⟩] :=
  (classification_is_first_match Entry.sendSuggestionMessage inFlightController "Hello"
    (FetchResult.rejected "error 429 after 401") ⟨"error 429 after 401"⟩ rfl).1.trans rfl

/-- C30: the connection test sets health to `connected` on a response with status 200 to
299, to `error` on any other response and to `disconnected` when `fetch` rejects; it
leaves `isProcessing`, `lastRequestTime`, the history window and the transcript as they
are; its request carries the single message user `Hello` with `max_tokens` 10 and is the
same whatever the guard state and the window are. -/
theorem connection_test (c : AIChatManager) :
    (∀ (status : Nat) (statusText : String) (body : BodyResult),
      (200 ≤ status ∧ status ≤ 299 →
        (testAIConnection_resume c
          (FetchResult.resolved ⟨status, statusText, body⟩)).connectionStatus =
            ConnectionStatus.connected) ∧
      (¬ (200 ≤ status ∧ status ≤ 299) →
        (testAIConnection_resume c
          (FetchResult.resolved ⟨status, statusText, body⟩)).connectionStatus =
            ConnectionStatus.error)) ∧
    (∀ exceptionMessage : String,
      (testAIConnection_resume c (FetchResult.rejected exceptionMessage)).connectionStatus =
        ConnectionStatus.disconnected) ∧
    (∀ result : FetchResult,
      (testAIConnection_resume c result).isProcessing = c.isProcessing ∧
      (testAIConnection_resume c result).lastRequestTime = c.lastRequestTime ∧
      (testAIConnection_resume c result).conversationHistory = c.conversationHistory ∧
      (testAIConnection_resume c result).chatMessages = c.chatMessages) ∧
    (testAIConnection_start c).body.messages = [⟨Role.user, JsValue.str "Hello"⟩] ∧
    (testAIConnection_start c).body.max_tokens = 10 ∧
    (testAIConnection_start c).body.model = "openai/gpt-oss-20b" ∧
    (∀ c2 : AIChatManager, c2.apiKey = c.apiKey →
      testAIConnection_start c2 = testAIConnection_start c) := by
  refine ⟨?_, fun _ => rfl, ?_, rfl, rfl, rfl, ?_⟩
  · intro status statusText body
    constructor
    · intro hs
      simp [testAIConnection_resume, Response.ok, hs.1, hs.2]
    · intro hs
      have hok : (⟨status, statusText, body⟩ : Response).ok = false := by
        simp only [Response.ok, Bool.and_eq_false_imp, decide_eq_true_eq,
          decide_eq_false_iff_not]
        intro h1 h2
        exact hs ⟨h1, h2⟩
      simp [testAIConnection_resume, hok]
  · intro result
    cases result with
    | rejected msg => exact ⟨rfl, rfl, rfl, rfl⟩
    | resolved response =>
      simp only [testAIConnection_resume]
      split <;> exact ⟨rfl, rfl, rfl, rfl⟩
  · intro c2 hkey
    simp only [testAIConnection_start, AIChatManager.apiUrl, AIChatManager.model, hkey]

theorem connection_test_witness :
    (testAIConnection_resume inFlightController
      (FetchResult.resolved ⟨200, "OK", BodyResult.failed "not read"⟩)).connectionStatus =
        ConnectionStatus.connected ∧
    (testAIConnection_resume inFlightController
      (FetchResult.resolved ⟨503, "Service Unavailable", BodyResult.failed "not read"⟩)
      ).connectionStatus = ConnectionStatus.error ∧
    (testAIConnection_resume inFlightController
      (FetchResult.resolved ⟨200, "OK", BodyResult.failed "not read"⟩)).isProcessing = true ∧
    testAIConnection_start inFlightController = testAIConnection_start (AIChatManager.new "key") :=
  ⟨((connection_test inFlightController).1 200 "OK" (BodyResult.failed "not read")).1
      (by decide),
    ((connection_test inFlightController).1 503 "Service Unavailable"
      (BodyResult.failed "not read")).2 (by decide),
    ((connection_test inFlightController).2.2.1
      (FetchResult.resolved ⟨200, "OK", BodyResult.failed "not read"⟩)).1,
    ((connection_test (AIChatManager.new "key")).2.2.2.2.2.2 inFlightController rfl)⟩

end SchoolPortal
